import Mathlib

/-!
# Verification of the Orbits gravitational body simulator

A shallow embedding of the simulation core of the `eggmund/Orbits` repository
(`src/main.rs`, `src/planet.rs`, `src/tools.rs`, `src/body.rs`), together with
theorems settling the specification claims about it.

Modelling conventions:
* `f32` scalars are idealised as real numbers (`ℝ`); `f32` literals such as
  `0.0001` denote the corresponding exact rationals.
* 2-D `nalgebra` points and vectors (`Point2<f32>`, `Vector2<f32>`) are pairs
  `ℝ × ℝ` with componentwise addition/subtraction; scalar multiplication and
  division are made explicit (`vsmul`, `smulv`, `vdiv`).
* `std::time::Duration` values (always non-negative in Rust) are real numbers
  measured in seconds; `Instant` timestamps are real numbers, and each call of
  `Instant::now()` is threaded through as an explicit `now : ℝ` parameter.
* The `HashMap<usize, RefCell<Planet>>` collections are association lists
  `List (Nat × Planet)`; the list order models the (arbitrary but fixed during
  one tick) iteration order of the hash map, which the scan of
  `MainState::update` snapshots into its `keys` vector.
* Rendering-only state (colors, meshes, mouse input) is omitted; `update_color`
  only mutates the omitted color field and is dropped with it.
-/

noncomputable section

attribute [local instance] Classical.propDecidable

open Real

/-- Source `main.rs`: `pub const G: f32 = 0.0001;` (gravitational constant). -/
def G : ℝ := 1/10000

/-- Source `main.rs`: `pub const SCREEN_DIMS: (f32, f32) = (1280.0, 860.0);`. -/
def SCREEN_DIMS : ℝ × ℝ := (1280, 860)

/-- Source `planet.rs`: `pub const PLANET_DENSITY: f32 = 5000.0;`. -/
def PLANET_DENSITY : ℝ := 5000

/-- Source `tools.rs`, `volume_of_sphere`: `(4.0/3.0) * PI * radius.powi(3)`. -/
def volume_of_sphere (radius : ℝ) : ℝ := (4/3) * π * radius ^ 3

/-- Source `tools.rs`, `inverse_volume_of_sphere`:
`((3.0 * volume)/(4.0 * PI)).powf(1.0/3.0)`. -/
def inverse_volume_of_sphere (volume : ℝ) : ℝ :=
  ((3 * volume) / (4 * π)) ^ ((1 : ℝ)/3)

/-- Source `tools.rs`, `get_angle`: `vec.y.atan2(vec.x)`; the two-argument
arctangent of `(x, y)` is the argument of the complex number `x + i y`. -/
def get_angle (vec : ℝ × ℝ) : ℝ := Complex.arg ⟨vec.1, vec.2⟩

/-- Source `tools.rs`, `get_components`:
`Vector2::new(magnitude * angle.cos(), magnitude * angle.sin())`. -/
def get_components (magnitude angle : ℝ) : ℝ × ℝ :=
  (magnitude * Real.cos angle, magnitude * Real.sin angle)

/-- Vector times scalar (`nalgebra`'s `Vector2<f32> * f32`). -/
def vsmul (v : ℝ × ℝ) (c : ℝ) : ℝ × ℝ := (v.1 * c, v.2 * c)

/-- Scalar times vector (`nalgebra`'s `f32 * Vector2<f32>`). -/
def smulv (c : ℝ) (v : ℝ × ℝ) : ℝ × ℝ := (c * v.1, c * v.2)

/-- Vector divided by scalar (`nalgebra`'s `Vector2<f32> / f32`). -/
def vdiv (v : ℝ × ℝ) (c : ℝ) : ℝ × ℝ := (v.1 / c, v.2 / c)

/-- Euclidean norm of a 2-D vector (`nalgebra`'s `.norm()`). -/
def norm2 (v : ℝ × ℝ) : ℝ := Real.sqrt (v.1 ^ 2 + v.2 ^ 2)

/-- Source `planet.rs`, `struct Planet` (the rendering-only `color` field is omitted). -/
structure Planet where
  id : Nat
  position : ℝ × ℝ
  velocity : ℝ × ℝ
  mass : ℝ
  radius : ℝ
  resultant_force : ℝ × ℝ
  spawn_protection_timer : Option ℝ

/-- Source `planet.rs`, `Planet::mass_from_radius`: `tools::volume_of_sphere(radius) * density`. -/
def Planet.mass_from_radius (radius density : ℝ) : ℝ :=
  volume_of_sphere radius * density

/-- Source `planet.rs`, `Planet::radius_from_mass`: `tools::inverse_volume_of_sphere(mass/density)`. -/
def Planet.radius_from_mass (mass density : ℝ) : ℝ :=
  inverse_volume_of_sphere (mass / density)

/-- Source `planet.rs`, `Planet::new`: missing velocity defaults to zero, missing mass
is derived from the radius and `PLANET_DENSITY`. -/
def Planet.new (id : Nat) (position : ℝ × ℝ) (velocity : Option (ℝ × ℝ))
    (mass : Option ℝ) (radius : ℝ) (spawn_protection_timer : Option ℝ) : Planet :=
  { id := id
    position := position
    velocity := velocity.getD (0, 0)
    mass := mass.getD (Planet.mass_from_radius radius PLANET_DENSITY)
    radius := radius
    resultant_force := (0, 0)
    spawn_protection_timer := spawn_protection_timer }

/-- Source `planet.rs`, `Planet::has_spawn_protection`: `self.spawn_protection_timer.is_some()`. -/
def Planet.has_spawn_protection (p : Planet) : Bool :=
  p.spawn_protection_timer.isSome

/-- One coordinate of the `TELEPORT_ON_EDGES` block of `planet.rs`
`Planet::update` (the constant is `true` in `main.rs`): if the coordinate is
below `-radius` it teleports to `screen + radius`, else if it is above
`screen + radius` it teleports to `-radius`. -/
def wrapCoord (radius screen x : ℝ) : ℝ :=
  if x < -radius then screen + radius
  else if x > screen + radius then -radius
  else x

/-- Source `planet.rs`, `Planet::update(dt, dt_duration)`.  In the source `dt` is
`dt_duration.as_secs_f32()` (set by `MainState::update`), so both parameters
denote the same elapsed time and are modelled by the single `dt`. -/
def Planet.update (dt : ℝ) (p : Planet) : Planet :=
  let acceleration := vdiv p.resultant_force p.mass
  let velocity := p.velocity + vsmul acceleration dt
  let position := p.position + vsmul velocity dt
  let position := (wrapCoord p.radius SCREEN_DIMS.1 position.1,
                   wrapCoord p.radius SCREEN_DIMS.2 position.2)
  { p with
    velocity := velocity
    position := position
    resultant_force := (0, 0)
    spawn_protection_timer :=
      match p.spawn_protection_timer with
      | some spawn_timer =>
        if ¬ (spawn_timer < dt) then some (spawn_timer - dt) else none
      | none => none }

/-- Source `main.rs`, `MainState::collide_planets(pl1, pl2)`: merges `pl2` into `pl1`
in place (the result is the new value of `pl1`; its `id`, `resultant_force`
and `spawn_protection_timer` fields are untouched).  The `update_color` call
only changes the omitted color field. -/
def collide_planets (pl1 pl2 : Planet) : Planet :=
  let total_mass := pl1.mass + pl2.mass
  let total_momentum := smulv pl1.mass pl1.velocity + smulv pl2.mass pl2.velocity
  { pl1 with
    radius := inverse_volume_of_sphere (total_mass / PLANET_DENSITY)
    position := ((pl1.position.1 * pl1.mass + pl2.position.1 * pl2.mass) / total_mass,
                 (pl1.position.2 * pl1.mass + pl2.position.2 * pl2.mass) / total_mass)
    velocity := vdiv total_momentum total_mass
    mass := total_mass }

/-- Modelled from the spec: the four-argument
`tools::newtonian_grav(pl1, pl2, square_distance, dist_vec)` called by
`MainState::update` is absent from the snapshot's `tools.rs` (which holds an
older two-argument variant); spec §4.1 gives `F = G·m_a·m_b / |r|³ · r` with
`r = pos_b - pos_a`, accumulated positively into `pl1` and negatively into
`pl2` (attraction).  `|r|` is the square root of the passed `square_distance`. -/
def newtonian_grav (pl1 pl2 : Planet) (square_distance : ℝ) (dist_vec : ℝ × ℝ) :
    Planet × Planet :=
  let force_vec :=
    vsmul dist_vec (G * pl1.mass * pl2.mass / (Real.sqrt square_distance) ^ 3)
  ({ pl1 with resultant_force := pl1.resultant_force + force_vec },
   { pl2 with resultant_force := pl2.resultant_force - force_vec })

/-- Source `tools.rs`, `newtonian_grav(pl1, pl2)` (the two-argument variant present in
the snapshot, lines 28–42): the force magnitude `G·m₁·m₂/d²` is decomposed
through the polar angle of the separation vector and accumulated positively
into `pl1` and negatively into `pl2`. -/
def newtonian_grav_polar (pl1 pl2 : Planet) : Planet × Planet :=
  let dist_vec := pl2.position - pl1.position
  let angle := get_angle dist_vec
  let dist_squared := dist_vec.1 ^ 2 + dist_vec.2 ^ 2
  let force := (G * pl1.mass * pl2.mass) / dist_squared
  let force_vec := get_components force angle
  ({ pl1 with resultant_force := pl1.resultant_force + force_vec },
   { pl2 with resultant_force := pl2.resultant_force - force_vec })

/-- Modelled from the spec: `GRAV_CONST`, the gravitational constant of the
`body.rs` variant, is defined in that variant's missing crate root; the spec
(§4.1) only says "`G` a tunable constant", so we use the `G` of `main.rs`. -/
def GRAV_CONST : ℝ := G

/-- Source `body.rs`, `Body::newtonian_force`:
`r * GRAV_CONST * ((m * M) / (distance * distance * distance))` where
`r = other.position() - self.position()` and `distance = r.norm()`. -/
def newtonian_force (self other : Planet) : ℝ × ℝ :=
  let r := other.position - self.position
  let distance := norm2 r
  vsmul r (GRAV_CONST * ((self.mass * other.mass) / (distance * distance * distance)))

/-- Source `tools.rs`, `check_collision` (lines 45–50): axis-aligned bounding-box test
then circle test.  `MainState::update` (line 378) inlines the identical
formula. -/
def check_collision (planet1 planet2 : Planet) : Prop :=
  let min_dist := planet1.radius + planet2.radius
  let dist_vec := planet2.position - planet1.position
  |dist_vec.1| ≤ min_dist ∧ |dist_vec.2| ≤ min_dist ∧
    dist_vec.1 ^ 2 + dist_vec.2 ^ 2 ≤ min_dist ^ 2

/-- From the spec (§4.2): the pure circle test alone,
`Δx² + Δy² ≤ (r_a + r_b)²`, stated for comparison with `check_collision`. -/
def circle_collision_spec (planet1 planet2 : Planet) : Prop :=
  let min_dist := planet1.radius + planet2.radius
  let dist_vec := planet2.position - planet1.position
  dist_vec.1 ^ 2 + dist_vec.2 ^ 2 ≤ min_dist ^ 2

/-- Source `planet.rs`: `const PLANET_TRAIL_NODE_PLACEMENT_PERIOD: u64 = 20;`
(milliseconds, as seconds). -/
def PLANET_TRAIL_NODE_PLACEMENT_PERIOD : ℝ := 20/1000

/-- Source `planet.rs`: `const PLANET_TRAIL_NODE_LIFETIME: u64 = 700;`
(milliseconds, as seconds). -/
def PLANET_TRAIL_NODE_LIFETIME : ℝ := 700/1000

/-- Source `planet.rs`, `struct PlanetTrailNode`. -/
structure PlanetTrailNode where
  pos : ℝ × ℝ
  time_created : ℝ

/-- Source `planet.rs`, `struct PlanetTrail`; the `VecDeque` is a list whose head is
the deque front (oldest node) and whose last element is the deque back. -/
structure PlanetTrail where
  nodes : List PlanetTrailNode
  node_placement_timer : ℝ
  has_parent : Bool

/-- Source `planet.rs`, `PlanetTrail::new`: one initial node at the start position. -/
def PlanetTrail.new (start_pos : ℝ × ℝ) (now : ℝ) : PlanetTrail :=
  { nodes := [⟨start_pos, now⟩]
    node_placement_timer := 0
    has_parent := true }

/-- Source `planet.rs`, `PlanetTrail::kill_dead_nodes`: pop nodes from the front while
the front node's age has reached the lifetime. -/
def PlanetTrail.kill_dead_nodes (now : ℝ) (t : PlanetTrail) : PlanetTrail :=
  { t with nodes :=
      t.nodes.dropWhile (fun node =>
        now - node.time_created ≥ PLANET_TRAIL_NODE_LIFETIME) }

/-- Source `planet.rs`, `PlanetTrail::add_node`: a node is placed only when the deque
back exists and the squared distance from it exceeds `0.1` (the inner
`self.nodes.is_empty()` disjunct is dead code: inside the `Some` branch the
deque is non-empty). -/
def PlanetTrail.add_node (pos : ℝ × ℝ) (now : ℝ) (t : PlanetTrail) : PlanetTrail :=
  let can_place :=
    match t.nodes.getLast? with
    | some last_node =>
        t.nodes.isEmpty = true ∨
          (pos.1 - last_node.pos.1) ^ 2 + (pos.2 - last_node.pos.2) ^ 2 > 1/10
    | none => False
  if can_place then { t with nodes := t.nodes ++ [⟨pos, now⟩] } else t

/-- Source `planet.rs`, `PlanetTrail::update(dt_duration, parent_pos)`: expire old
nodes, then either accumulate the placement timer and possibly place a node
(parent present), or flag the trail parentless. -/
def PlanetTrail.update (dt : ℝ) (parent_pos : Option (ℝ × ℝ)) (now : ℝ)
    (t : PlanetTrail) : PlanetTrail :=
  let t := t.kill_dead_nodes now
  match parent_pos with
  | some pp =>
    let t := { t with has_parent := true,
                      node_placement_timer := t.node_placement_timer + dt }
    if t.node_placement_timer > PLANET_TRAIL_NODE_PLACEMENT_PERIOD then
      { t.add_node pp now with
        node_placement_timer :=
          t.node_placement_timer - PLANET_TRAIL_NODE_PLACEMENT_PERIOD }
    else t
  | none => { t with has_parent := false }

/-- Source `planet.rs`, `PlanetTrail::is_dead`: `self.nodes.is_empty() && !self.has_parent`. -/
def PlanetTrail.is_dead (t : PlanetTrail) : Bool :=
  t.nodes.isEmpty && !t.has_parent

/-- Source `planet.rs`, `PlanetTrail::node_count`. -/
def PlanetTrail.node_count (t : PlanetTrail) : Nat := t.nodes.length

/-- The simulation-relevant state of `main.rs` `MainState` (meshes, mouse and
debug flags omitted). -/
structure MainState where
  planet_id_count : Nat
  planets : List (Nat × Planet)
  planet_trails : List (Nat × PlanetTrail)

/-- The mutable locals of the pairwise scan of `MainState::update`:
the planet map (scanned through the snapshotted `keys` order, so addressed by
position) plus `collided_planets` and `planets_to_remove` (both holding map
keys, i.e. planet ids). -/
structure ScanState where
  planets : List (Nat × Planet)
  collided : List Nat
  toRemove : List Nat

/-- The body of the inner pair loop of `MainState::update` once both planets
have been fetched (`ki`, `kj` are the key/planet entries at positions `i`, `j`):
compute the collision data, then either merge (`collide_planets` written back
to position `i`, both keys recorded in `collided_planets`, key `j` recorded in
`planets_to_remove`) or, when not colliding, accumulate gravity into both. -/
def pairCore (st : ScanState) (i j : Nat) (ki kj : Nat × Planet) : ScanState :=
  let pl1 := ki.2
  let pl2 := kj.2
  let dist_vec := pl2.position - pl1.position
  let square_dist := dist_vec.1 ^ 2 + dist_vec.2 ^ 2
  -- the source inlines the AABB-then-circle expression of `check_collision`
  let colliding := check_collision pl1 pl2
  let protection := pl1.has_spawn_protection = true ∨ pl2.has_spawn_protection = true
  if colliding ∧ ¬ protection then
    { st with
      planets := st.planets.set i (ki.1, collide_planets pl1 pl2)
      collided := st.collided ++ [ki.1, kj.1]
      toRemove := st.toRemove ++ [kj.1] }
  else if ¬ colliding then
    let fg := newtonian_grav pl1 pl2 square_dist dist_vec
    { st with planets := (st.planets.set i (ki.1, fg.1)).set j (kj.1, fg.2) }
  else st

/-- One iteration of the inner `for j in i+1..len` loop: skip if the loop
index `j` occurs in `collided_planets` (the source compares the *index* `j`
against a vector of planet *ids*), otherwise fetch both entries and run
`pairCore`.  The `expect` calls of the source cannot fail because `i, j < len`
and the scan never removes entries; the `none` fallback is unreachable. -/
def pairStep (st : ScanState) (i j : Nat) : ScanState :=
  if st.collided.contains j then st
  else
    match st.planets.get? i, st.planets.get? j with
    | some ki, some kj => pairCore st i j ki kj
    | _, _ => st

/-- One iteration of the outer `for i in 0..len-1` loop: skip the whole inner
loop if the loop index `i` occurs in `collided_planets`, else run the inner
loop over `j ∈ i+1..len`. -/
def outerStep (len : Nat) (st : ScanState) (i : Nat) : ScanState :=
  if st.collided.contains i then st
  else (List.range' (i+1) (len - (i+1))).foldl (fun st' j => pairStep st' i j) st

/-- The full pairwise scan of `MainState::update` (lines 361–400), with `len`
frozen at entry as in the source. -/
def scanPairs (len : Nat) (st : ScanState) : ScanState :=
  (List.range (len - 1)).foldl (outerStep len) st

/-- Source `main.rs`, `MainState::update_planet_trails`: update every trail with the
position of its planet when the id is still present. -/
def update_planet_trails (dt now : ℝ) (planets : List (Nat × Planet))
    (trails : List (Nat × PlanetTrail)) : List (Nat × PlanetTrail) :=
  trails.map (fun kt =>
    (kt.1, kt.2.update dt ((planets.lookup kt.1).map Planet.position) now))

/-- Source `main.rs`, `MainState::update` (one tick, lines 341–409): retain live
trails, integrate every planet (`Planet::update`), run the pairwise
collision/gravity scan, remove the planets recorded in `planets_to_remove`,
and update the trails from the surviving planets.  The source wraps the
integration and the scan in `if len > 0`; for `len = 0` both phases are
no-ops on the empty map, so the guard is dropped here. -/
def tick (now dt : ℝ) (s : MainState) : MainState :=
  let trails1 := s.planet_trails.filter (fun kt => !kt.2.is_dead)
  let len := s.planets.length
  let planets1 := s.planets.map (fun kp => (kp.1, kp.2.update dt))
  let st := scanPairs len ⟨planets1, [], []⟩
  let planets2 := st.planets.filter (fun kp => !(st.toRemove.contains kp.1))
  { s with
    planets := planets2
    planet_trails := update_planet_trails dt now planets2 trails1 }

/-- A planet position on which the `TELEPORT_ON_EDGES` block of
`Planet::update` is the identity: each coordinate lies between `-radius` and
the screen dimension plus `radius`. -/
def InBounds (p : Planet) : Prop :=
  -p.radius ≤ p.position.1 ∧ p.position.1 ≤ SCREEN_DIMS.1 + p.radius ∧
  -p.radius ≤ p.position.2 ∧ p.position.2 ≤ SCREEN_DIMS.2 + p.radius

/-- Two planets that agree on every field except possibly the
`resultant_force` accumulator. -/
def ForceOnly (p q : Planet) : Prop :=
  p.id = q.id ∧ p.position = q.position ∧ p.velocity = q.velocity ∧
  p.mass = q.mass ∧ p.radius = q.radius ∧
  p.spawn_protection_timer = q.spawn_protection_timer

/-- Two planets that agree on position, velocity and radius (all the data the
collision test reads, plus the velocity tracked through the scan). -/
def SameMotion (p q : Planet) : Prop :=
  p.position = q.position ∧ p.velocity = q.velocity ∧ p.radius = q.radius

/-- Invariant of the pairwise scan started on the planet list `l0`: the keys
are preserved slot by slot, a slot's planet differs from its initial value
only in its force accumulator unless its key has been recorded in
`collided_planets`, and every id in `planets_to_remove` is also in
`collided_planets`. -/
def ScanInvF (l0 : List (Nat × Planet)) (st : ScanState) : Prop :=
  st.planets.length = l0.length ∧
  (∀ x ∈ st.toRemove, x ∈ st.collided) ∧
  ∀ k, k < l0.length → ∃ key q p,
    st.planets.get? k = some (key, q) ∧ l0.get? k = some (key, p) ∧
    (ForceOnly q p ∨ key ∈ st.collided)

/-- Invariant of a scan in which no two distinct slots hold colliding
planets: no collision is ever recorded and every slot keeps its position,
velocity and radius. -/
def ScanInvM (l0 : List (Nat × Planet)) (st : ScanState) : Prop :=
  st.collided = [] ∧ st.toRemove = [] ∧ st.planets.length = l0.length ∧
  ∀ k, k < l0.length → ∃ key q p,
    st.planets.get? k = some (key, q) ∧ l0.get? k = some (key, p) ∧
    SameMotion q p

/-- Helper constructor: a planet with a zero force accumulator. -/
def mkPlanet (id : Nat) (pos vel : ℝ × ℝ) (mass radius : ℝ)
    (timer : Option ℝ) : Planet :=
  ⟨id, pos, vel, mass, radius, (0, 0), timer⟩

/-- Concrete scenario for C1: bodies `0` and `1` overlap, body `2` is distant.
The masses `80000·π/3` make the merged radius come out as exactly `2`. -/
def c1A : Planet := mkPlanet 0 (100, 100) (0, 0) (80000 * π / 3) 5 none

def c1B : Planet := mkPlanet 1 (106, 100) (0, 0) (80000 * π / 3) 5 none

def c1C : Planet := mkPlanet 2 (111, 100) (0, 0) 10000 5 none

def c1s0 : MainState := ⟨3, [(0, c1A), (1, c1B), (2, c1C)], []⟩

/-- The body merged from `c1A` and `c1B`, before the same tick's gravity
towards `c1C` is accumulated into it. -/
def c1M0 : Planet :=
  ⟨0, (103, 100), (0, 0), 160000 * π / 3, 2, (0, 0), none⟩

/-- The planet at key `0` after the first C1 tick: merged from `c1A` and
`c1B` in place, with the gravity towards `c1C` accumulated in the same tick. -/
def c1Merged : Planet :=
  ⟨0, (103, 100), (0, 0), 160000 * π / 3, 2, (2500 * π / 3, 0), none⟩

/-- The planet at key `2` after the first C1 tick. -/
def c1CAfter : Planet :=
  ⟨2, (111, 100), (0, 0), 10000, 5, (-(2500 * π / 3), 0), none⟩

/-- The planet at key `0` after the second C1 tick's integration phase: the
gravity accumulated in the tick in which it collided has changed its
velocity. -/
def c1M2 : Planet :=
  ⟨0, (6593/64, 100), (1/64, 0), 160000 * π / 3, 2, (0, 0), none⟩

/-- The planet at key `2` after the second C1 tick's integration phase. -/
def c1C2 : Planet :=
  ⟨2, (111 - π/12, 100), (-(π/12), 0), 10000, 5, (0, 0), none⟩

/-- Witness state for the amended C1: a single isolated in-bounds planet. -/
def c1w : Planet := mkPlanet 0 (100, 100) (0, 0) 10000 5 none

def c1wState : MainState := ⟨1, [(0, c1w)], []⟩

/-- Concrete scenario for C2: two overlapping unprotected bodies with keys
`10` and `11`, each with a live trail. -/
def c2a : Planet := mkPlanet 10 (100, 100) (0, 0) 10000 5 none

def c2b : Planet := mkPlanet 11 (106, 100) (0, 0) 30000 5 none

def c2s0 : MainState :=
  ⟨12, [(10, c2a), (11, c2b)],
   [(10, PlanetTrail.new (100, 100) 0), (11, PlanetTrail.new (106, 100) 0)]⟩

/-- Concrete scenario for C3: two radius-`1` bodies whose masses were supplied
explicitly (each the mass a radius-`cbrt 4` body would have), so the merged
sphere volume differs from the sum of the input sphere volumes. -/
def c3a : Planet := mkPlanet 0 (100, 100) (0, 0) (80000 * π / 3) 1 none

def c3b : Planet := mkPlanet 1 (101, 100) (0, 0) (80000 * π / 3) 1 none

/-- Concrete scenario for C4: a transitive chain `0–1–2` (`0` overlaps `1`,
`1` overlaps `2`, `0` does not overlap `2`). -/
def c4A : Planet := mkPlanet 0 (100, 100) (0, 0) (80000 * π / 3) 4 none

def c4B : Planet := mkPlanet 1 (107, 100) (0, 0) (80000 * π / 3) 4 none

def c4C : Planet := mkPlanet 2 (114, 100) (0, 0) 10000 4 none

def c4s0 : MainState := ⟨3, [(0, c4A), (1, c4B), (2, c4C)], []⟩

/-- Concrete scenario for C5: a single motionless body parked beyond the
right screen edge (`x = 2000 > 1280 + radius`). -/
def c5p : Planet := mkPlanet 0 (2000, 100) (0, 0) 10000 5 none

def c5s0 : MainState := ⟨1, [(0, c5p)], []⟩

/-- Witness state for the amended C5: two distant in-bounds bodies. -/
def c5w1 : Planet := mkPlanet 0 (100, 100) (0, 0) 10000 5 none

def c5w2 : Planet := mkPlanet 1 (600, 100) (0, 0) 10000 5 none

def c5wState : MainState := ⟨2, [(0, c5w1), (1, c5w2)], []⟩

/-- Concrete scenario for C6: body `20` overlaps body `21` and enters the tick
with `0.5 s` of spawn protection left, but the tick advances by `dt = 1 s`. -/
def c6a : Planet := mkPlanet 20 (100, 100) (0, 0) 10000 5 (some (1/2))

def c6b : Planet := mkPlanet 21 (106, 100) (0, 0) 10000 5 none

def c6s0 : MainState := ⟨22, [(20, c6a), (21, c6b)], []⟩

/-- Witness state for the amended C6: the protected body has `5 s` left, so
protection survives the `dt = 1 s` decrement. -/
def c6wa : Planet := mkPlanet 30 (100, 100) (0, 0) 10000 5 (some 5)

def c6wb : Planet := mkPlanet 31 (106, 100) (0, 0) 10000 5 none

def c6wState : MainState := ⟨32, [(30, c6wa), (31, c6wb)], []⟩

/-- Witness planets for C7: equal masses, separations `5` and `10`. -/
def c7a : Planet := mkPlanet 0 (0, 0) (0, 0) 2 1 none

def c7b : Planet := mkPlanet 1 (3, 4) (0, 0) 3 1 none

def c7a2 : Planet := mkPlanet 2 (0, 0) (0, 0) 2 1 none

def c7b2 : Planet := mkPlanet 3 (6, 8) (0, 0) 3 1 none

/-- Witness planets for C8. -/
def c8a : Planet := mkPlanet 0 (100, 100) (0, 0) 10000 5 none

def c8b : Planet := mkPlanet 1 (103, 104) (0, 0) 10000 5 none

/-- Witness planet for C9: starts beyond the right edge. -/
def c9p : Planet := mkPlanet 0 (1290, 100) (0, 0) 10000 5 none

/-- Witness trail for C10: all nodes have expired, parent still alive. -/
def c10t : PlanetTrail := ⟨[], 3, true⟩

attribute [ext] Planet PlanetTrail ScanState MainState

/-! ## Basic algebraic lemmas about the embedded operations -/

@[simp] lemma vsmul_zero_right (v : ℝ × ℝ) : vsmul v 0 = 0 := by
  simp [vsmul, Prod.ext_iff]

@[simp] lemma vdiv_zero_left (c : ℝ) : vdiv 0 c = 0 := by
  simp [vdiv, Prod.ext_iff]

@[simp] lemma vsmul_zero_left (c : ℝ) : vsmul 0 c = 0 := by
  simp [vsmul, Prod.ext_iff]

@[simp] lemma smulv_zero_right (c : ℝ) : smulv c 0 = 0 := by
  simp [smulv, Prod.ext_iff]

lemma add_vsmul_zero (w v : ℝ × ℝ) : w + vsmul v 0 = w := by
  rw [vsmul_zero_right, add_zero]

@[simp] lemma update_id (dt : ℝ) (p : Planet) : (p.update dt).id = p.id := rfl

@[simp] lemma update_mass (dt : ℝ) (p : Planet) : (p.update dt).mass = p.mass := rfl

@[simp] lemma update_radius (dt : ℝ) (p : Planet) : (p.update dt).radius = p.radius := rfl

@[simp] lemma update_force (dt : ℝ) (p : Planet) :
    (p.update dt).resultant_force = (0, 0) := rfl

lemma update_velocity (dt : ℝ) (p : Planet) :
    (p.update dt).velocity = p.velocity + vsmul (vdiv p.resultant_force p.mass) dt := rfl

@[simp] lemma collide_id (pl1 pl2 : Planet) :
    (collide_planets pl1 pl2).id = pl1.id := rfl

@[simp] lemma collide_mass (pl1 pl2 : Planet) :
    (collide_planets pl1 pl2).mass = pl1.mass + pl2.mass := rfl

@[simp] lemma collide_force (pl1 pl2 : Planet) :
    (collide_planets pl1 pl2).resultant_force = pl1.resultant_force := rfl

@[simp] lemma collide_timer (pl1 pl2 : Planet) :
    (collide_planets pl1 pl2).spawn_protection_timer = pl1.spawn_protection_timer := rfl

@[simp] lemma grav_fst_id (pl1 pl2 : Planet) (sq : ℝ) (dv : ℝ × ℝ) :
    (newtonian_grav pl1 pl2 sq dv).1.id = pl1.id := rfl

@[simp] lemma grav_fst_position (pl1 pl2 : Planet) (sq : ℝ) (dv : ℝ × ℝ) :
    (newtonian_grav pl1 pl2 sq dv).1.position = pl1.position := rfl

@[simp] lemma grav_fst_velocity (pl1 pl2 : Planet) (sq : ℝ) (dv : ℝ × ℝ) :
    (newtonian_grav pl1 pl2 sq dv).1.velocity = pl1.velocity := rfl

@[simp] lemma grav_fst_mass (pl1 pl2 : Planet) (sq : ℝ) (dv : ℝ × ℝ) :
    (newtonian_grav pl1 pl2 sq dv).1.mass = pl1.mass := rfl

@[simp] lemma grav_fst_radius (pl1 pl2 : Planet) (sq : ℝ) (dv : ℝ × ℝ) :
    (newtonian_grav pl1 pl2 sq dv).1.radius = pl1.radius := rfl

@[simp] lemma grav_fst_timer (pl1 pl2 : Planet) (sq : ℝ) (dv : ℝ × ℝ) :
    (newtonian_grav pl1 pl2 sq dv).1.spawn_protection_timer =
      pl1.spawn_protection_timer := rfl

@[simp] lemma grav_snd_id (pl1 pl2 : Planet) (sq : ℝ) (dv : ℝ × ℝ) :
    (newtonian_grav pl1 pl2 sq dv).2.id = pl2.id := rfl

@[simp] lemma grav_snd_position (pl1 pl2 : Planet) (sq : ℝ) (dv : ℝ × ℝ) :
    (newtonian_grav pl1 pl2 sq dv).2.position = pl2.position := rfl

@[simp] lemma grav_snd_velocity (pl1 pl2 : Planet) (sq : ℝ) (dv : ℝ × ℝ) :
    (newtonian_grav pl1 pl2 sq dv).2.velocity = pl2.velocity := rfl

@[simp] lemma grav_snd_mass (pl1 pl2 : Planet) (sq : ℝ) (dv : ℝ × ℝ) :
    (newtonian_grav pl1 pl2 sq dv).2.mass = pl2.mass := rfl

@[simp] lemma grav_snd_radius (pl1 pl2 : Planet) (sq : ℝ) (dv : ℝ × ℝ) :
    (newtonian_grav pl1 pl2 sq dv).2.radius = pl2.radius := rfl

@[simp] lemma grav_snd_timer (pl1 pl2 : Planet) (sq : ℝ) (dv : ℝ × ℝ) :
    (newtonian_grav pl1 pl2 sq dv).2.spawn_protection_timer =
      pl2.spawn_protection_timer := rfl

lemma wrapCoord_eq_self {r s x : ℝ} (h1 : -r ≤ x) (h2 : x ≤ s + r) :
    wrapCoord r s x = x := by
  unfold wrapCoord
  rw [if_neg (not_lt.2 h1), if_neg (not_lt.2 h2)]

lemma wrapCoord_high {r s x : ℝ} (h1 : -r ≤ x) (h2 : x > s + r) :
    wrapCoord r s x = -r := by
  unfold wrapCoord
  rw [if_neg (not_lt.2 h1), if_pos h2]

lemma wrapCoord_low {r s x : ℝ} (h1 : x < -r) : wrapCoord r s x = s + r := by
  unfold wrapCoord
  rw [if_pos h1]

/-- With `dt = 0` the integration step of a clean in-bounds planet (zero force
accumulator, no spawn-protection timer) is the identity. -/
lemma Planet.update_zero_eq (p : Planet) (hf : p.resultant_force = (0, 0))
    (ht : p.spawn_protection_timer = none) (hb : InBounds p) : p.update 0 = p := by
  obtain ⟨h1, h2, h3, h4⟩ := hb
  unfold Planet.update
  ext <;>
    simp [hf, ht, add_vsmul_zero, wrapCoord_eq_self h1 h2, wrapCoord_eq_self h3 h4]

/-- The sphere-volume formula inverted by `inverse_volume_of_sphere`. -/
lemma volume_of_sphere_inverse {v : ℝ} (hv : 0 ≤ v) :
    volume_of_sphere (inverse_volume_of_sphere v) = v := by
  unfold volume_of_sphere inverse_volume_of_sphere
  have hπ : (0:ℝ) < π := Real.pi_pos
  have hx : (0:ℝ) ≤ (3 * v) / (4 * π) := by positivity
  rw [← Real.rpow_natCast ((3 * v / (4 * π)) ^ ((1:ℝ)/3)) 3, ← Real.rpow_mul hx]
  norm_num
  field_simp
  ring

/-- Evaluation lemma: `inverse_volume_of_sphere (32·π/3) = 2`, the merged radius appearing in
the concrete collision scenarios. -/
lemma inverse_volume_32pi : inverse_volume_of_sphere (32 * π / 3) = 2 := by
  unfold inverse_volume_of_sphere
  have hπ : (0:ℝ) < π := Real.pi_pos
  have h8 : (3 * (32 * π / 3)) / (4 * π) = 8 := by field_simp; ring
  rw [h8, show (8:ℝ) = 2 ^ (3:ℕ) by norm_num, ← Real.rpow_natCast 2 3,
    ← Real.rpow_mul (by norm_num : (0:ℝ) ≤ 2)]
  norm_num

/-! ## Branch lemmas for the pairwise scan -/

lemma pairCore_merge (st : ScanState) (i j : Nat) (k1 k2 : Nat) (pl1 pl2 : Planet)
    (hc : check_collision pl1 pl2)
    (hp : ¬ (pl1.has_spawn_protection = true ∨ pl2.has_spawn_protection = true)) :
    pairCore st i j (k1, pl1) (k2, pl2) =
      { st with
        planets := st.planets.set i (k1, collide_planets pl1 pl2)
        collided := st.collided ++ [k1, k2]
        toRemove := st.toRemove ++ [k2] } := by
  simp only [pairCore]
  rw [if_pos ⟨hc, hp⟩]

lemma pairCore_grav (st : ScanState) (i j : Nat) (k1 k2 : Nat) (pl1 pl2 : Planet)
    (hnc : ¬ check_collision pl1 pl2) :
    pairCore st i j (k1, pl1) (k2, pl2) =
      { st with planets := (List.set (List.set st.planets i
          (k1, (newtonian_grav pl1 pl2
            ((pl2.position - pl1.position).1 ^ 2 + (pl2.position - pl1.position).2 ^ 2)
            (pl2.position - pl1.position)).1)) j
          (k2, (newtonian_grav pl1 pl2
            ((pl2.position - pl1.position).1 ^ 2 + (pl2.position - pl1.position).2 ^ 2)
            (pl2.position - pl1.position)).2)) } := by
  simp only [pairCore]
  rw [if_neg (fun h => hnc h.1), if_pos hnc]

lemma pairCore_skip (st : ScanState) (i j : Nat) (k1 k2 : Nat) (pl1 pl2 : Planet)
    (hc : check_collision pl1 pl2)
    (hp : pl1.has_spawn_protection = true ∨ pl2.has_spawn_protection = true) :
    pairCore st i j (k1, pl1) (k2, pl2) = st := by
  simp only [pairCore]
  rw [if_neg (fun h => h.2 hp), if_neg (not_not_intro hc)]

lemma pairStep_eval (st : ScanState) (i j : Nat) (ki kj : Nat × Planet)
    (h : st.collided.contains j = false)
    (hi : st.planets.get? i = some ki) (hj : st.planets.get? j = some kj) :
    pairStep st i j = pairCore st i j ki kj := by
  simp only [pairStep, h, hi, hj, Bool.false_eq_true, if_false]

lemma pairStep_skip (st : ScanState) (i j : Nat)
    (h : st.collided.contains j = true) : pairStep st i j = st := by
  simp only [pairStep, h, if_true]

lemma outerStep_skip (len : Nat) (st : ScanState) (i : Nat)
    (h : st.collided.contains i = true) : outerStep len st i = st := by
  simp only [outerStep, h, if_true]

lemma outerStep_run (len : Nat) (st : ScanState) (i : Nat)
    (h : st.collided.contains i = false) :
    outerStep len st i =
      (List.range' (i+1) (len - (i+1))).foldl (fun st' j => pairStep st' i j) st := by
  simp only [outerStep, h, Bool.false_eq_true, if_false]

/-- Invariants propagate through `List.foldl`. -/
lemma foldl_inv {α β : Type _} (P : α → Prop) (f : α → β → α) :
    ∀ (l : List β) (a : α), (∀ x b, b ∈ l → P x → P (f x b)) → P a →
      P (l.foldl f a)
  | [], _, _, ha => ha
  | b :: l, a, h, ha =>
    foldl_inv P f l (f a b)
      (fun x c hc hx => h x c (List.mem_cons_of_mem _ hc) hx)
      (h a b (List.mem_cons_self _ _) ha)

lemma update_timer_sub (p : Planet) (dt t : ℝ)
    (h : p.spawn_protection_timer = some t) (hge : ¬ t < dt) :
    (p.update dt).spawn_protection_timer = some (t - dt) := by
  simp [Planet.update, h, hge]

lemma update_timer_clear (p : Planet) (dt t : ℝ)
    (h : p.spawn_protection_timer = some t) (hlt : t < dt) :
    (p.update dt).spawn_protection_timer = none := by
  simp [Planet.update, h, hlt]

lemma norm2_sq (v : ℝ × ℝ) : norm2 v ^ 2 = v.1 ^ 2 + v.2 ^ 2 := by
  unfold norm2
  exact Real.sq_sqrt (by positivity)

lemma norm2_vsmul (v : ℝ × ℝ) (c : ℝ) : norm2 (vsmul v c) = |c| * norm2 v := by
  unfold norm2 vsmul
  rw [show (v.1 * c) ^ 2 + (v.2 * c) ^ 2 = c ^ 2 * (v.1 ^ 2 + v.2 ^ 2) by ring,
    Real.sqrt_mul (sq_nonneg c), Real.sqrt_sq_eq_abs]

lemma norm2_neg_sub (w v : ℝ × ℝ) : norm2 (w - v) = norm2 (v - w) := by
  unfold norm2
  congr 1
  cases v
  cases w
  simp [Prod.ext_iff]
  ring

/-! ## C3: conservation laws of `collide_planets` -/

/-- C3 (amended): a merge conserves mass exactly, momentum exactly, places the
result at the mass-weighted centre of mass, and gives the merged body the
radius whose sphere volume is `total_mass / PLANET_DENSITY`; that volume
equals the sum of the input sphere volumes exactly when both input masses are
radius-derived (`mass = volume_of_sphere radius * PLANET_DENSITY`). -/
theorem collide_planets_conservation (a b : Planet)
    (hma : 0 < a.mass) (hmb : 0 < b.mass) :
    (collide_planets a b).mass = a.mass + b.mass ∧
    (collide_planets a b).velocity.1 * (a.mass + b.mass) =
      a.mass * a.velocity.1 + b.mass * b.velocity.1 ∧
    (collide_planets a b).velocity.2 * (a.mass + b.mass) =
      a.mass * a.velocity.2 + b.mass * b.velocity.2 ∧
    (collide_planets a b).position.1 * (a.mass + b.mass) =
      a.position.1 * a.mass + b.position.1 * b.mass ∧
    (collide_planets a b).position.2 * (a.mass + b.mass) =
      a.position.2 * a.mass + b.position.2 * b.mass ∧
    volume_of_sphere (collide_planets a b).radius = (a.mass + b.mass) / PLANET_DENSITY ∧
    (a.mass = Planet.mass_from_radius a.radius PLANET_DENSITY →
      b.mass = Planet.mass_from_radius b.radius PLANET_DENSITY →
      volume_of_sphere (collide_planets a b).radius =
        volume_of_sphere a.radius + volume_of_sphere b.radius) := by
  have htot : (0:ℝ) < a.mass + b.mass := by linarith
  have hvol : volume_of_sphere (collide_planets a b).radius =
      (a.mass + b.mass) / PLANET_DENSITY := by
    show volume_of_sphere (inverse_volume_of_sphere ((a.mass + b.mass) / PLANET_DENSITY)) = _
    exact volume_of_sphere_inverse (by
      have : (0:ℝ) < PLANET_DENSITY := by norm_num [PLANET_DENSITY]
      positivity)
  refine ⟨rfl, ?_, ?_, ?_, ?_, hvol, ?_⟩
  · show (a.mass * a.velocity.1 + b.mass * b.velocity.1) / (a.mass + b.mass) * _ = _
    field_simp
  · show (a.mass * a.velocity.2 + b.mass * b.velocity.2) / (a.mass + b.mass) * _ = _
    field_simp
  · show (a.position.1 * a.mass + b.position.1 * b.mass) / (a.mass + b.mass) * _ = _
    field_simp
  · show (a.position.2 * a.mass + b.position.2 * b.mass) / (a.mass + b.mass) * _ = _
    field_simp
  · intro ha hb
    rw [hvol, ha, hb]
    unfold Planet.mass_from_radius
    have : (0:ℝ) < PLANET_DENSITY := by norm_num [PLANET_DENSITY]
    field_simp
    ring

/-- Witness for `collide_planets_conservation` at the concrete pair `c2a`,
`c2b`. -/
theorem collide_planets_conservation_witness :
    (0:ℝ) < c2a.mass ∧ (0:ℝ) < c2b.mass ∧
    (collide_planets c2a c2b).mass = c2a.mass + c2b.mass := by
  refine ⟨by norm_num [c2a, mkPlanet], by norm_num [c2b, mkPlanet], ?_⟩
  exact (collide_planets_conservation c2a c2b (by norm_num [c2a, mkPlanet])
    (by norm_num [c2b, mkPlanet])).1

/-- C3 (counterexample): with explicitly supplied masses (here each body has
radius `1` but the mass of a radius-`∛4` body), the merged sphere volume is
not the sum of the input sphere volumes. -/
theorem collide_volume_counterexample :
    volume_of_sphere (collide_planets c3a c3b).radius ≠
      volume_of_sphere c3a.radius + volume_of_sphere c3b.radius := by
  have hπ := Real.pi_pos
  have h1 : volume_of_sphere (collide_planets c3a c3b).radius =
      (c3a.mass + c3b.mass) / PLANET_DENSITY := by
    show volume_of_sphere (inverse_volume_of_sphere _) = _
    exact volume_of_sphere_inverse (by
      norm_num [c3a, c3b, mkPlanet, PLANET_DENSITY]
      positivity)
  rw [h1]
  norm_num [c3a, c3b, mkPlanet, PLANET_DENSITY, volume_of_sphere]
  intro h
  nlinarith [h, hπ]

/-! ## C7: Newton's third law and monotone decay of the force magnitude -/

/-- C7: the two-argument `newtonian_grav` of `tools.rs` adds to `pl1`'s force
accumulator exactly the negation of what it adds to `pl2`'s; the magnitude it
adds is `G·m₁·m₂/d²`; `Body::newtonian_force` is antisymmetric; and the force
magnitude strictly decreases as the distance grows, masses held fixed. -/
theorem newtonian_grav_third_law_monotone (a b a2 b2 : Planet)
    (hma : 0 < a.mass) (hmb : 0 < b.mass)
    (hma2 : a2.mass = a.mass) (hmb2 : b2.mass = b.mass)
    (hd1 : 0 < norm2 (b.position - a.position))
    (hdlt : norm2 (b.position - a.position) < norm2 (b2.position - a2.position)) :
    ((newtonian_grav_polar a b).1.resultant_force - a.resultant_force =
      -((newtonian_grav_polar a b).2.resultant_force - b.resultant_force)) ∧
    (newtonian_force a b = -newtonian_force b a) ∧
    (norm2 ((newtonian_grav_polar a b).1.resultant_force - a.resultant_force) =
      G * a.mass * b.mass / norm2 (b.position - a.position) ^ 2) ∧
    (norm2 (newtonian_force a2 b2) < norm2 (newtonian_force a b)) := by
  have hG : (0:ℝ) < G := by norm_num [G]
  have hsq : norm2 (b.position - a.position) ^ 2 =
      (b.position - a.position).1 ^ 2 + (b.position - a.position).2 ^ 2 :=
    norm2_sq _
  have hd2 : 0 < norm2 (b2.position - a2.position) := lt_trans hd1 hdlt
  have hGC : (0:ℝ) < GRAV_CONST := by norm_num [GRAV_CONST, G]
  have hmag : ∀ p q : Planet, 0 ≤ p.mass → 0 ≤ q.mass →
      0 < norm2 (q.position - p.position) →
      norm2 (newtonian_force p q) =
        GRAV_CONST * (p.mass * q.mass) / norm2 (q.position - p.position) ^ 2 := by
    intro p q hp hq hd
    simp only [newtonian_force]
    rw [norm2_vsmul]
    rw [abs_of_nonneg (by positivity)]
    field_simp
    ring
  refine ⟨?_, ?_, ?_, ?_⟩
  · simp only [newtonian_grav_polar]
    cases h1 : a.resultant_force
    cases h2 : b.resultant_force
    simp [Prod.ext_iff]
  · simp only [newtonian_force]
    rw [norm2_neg_sub a.position b.position]
    cases hA : a.position with
    | mk ax ay =>
      cases hB : b.position with
      | mk bx by' =>
        simp only [Prod.mk_sub_mk, vsmul, Prod.neg_mk, Prod.mk.injEq]
        constructor <;> ring
  · simp only [newtonian_grav_polar, get_components]
    have hfv : ∀ w : ℝ × ℝ, ∀ z : ℝ × ℝ, w + z - w = z := by
      intro w z
      cases w
      cases z
      simp [Prod.ext_iff]
    rw [hfv, hsq]
    unfold norm2
    rw [show (G * a.mass * b.mass / ((b.position - a.position).1 ^ 2 +
          (b.position - a.position).2 ^ 2) * Real.cos (get_angle (b.position - a.position))) ^ 2 +
        (G * a.mass * b.mass / ((b.position - a.position).1 ^ 2 +
          (b.position - a.position).2 ^ 2) * Real.sin (get_angle (b.position - a.position))) ^ 2 =
        (G * a.mass * b.mass / ((b.position - a.position).1 ^ 2 +
          (b.position - a.position).2 ^ 2)) ^ 2 *
          (Real.sin (get_angle (b.position - a.position)) ^ 2 +
           Real.cos (get_angle (b.position - a.position)) ^ 2) by ring,
      Real.sin_sq_add_cos_sq, mul_one, Real.sqrt_sq_eq_abs]
    rw [abs_of_nonneg (by positivity)]
  · rw [hmag a b hma.le hmb.le hd1, hmag a2 b2 (hma2 ▸ hma.le) (hmb2 ▸ hmb.le) hd2,
      hma2, hmb2]
    apply div_lt_div_of_pos_left (by positivity)
    · positivity
    · exact pow_lt_pow_left₀ hdlt hd1.le two_ne_zero

/-- Witness for `newtonian_grav_third_law_monotone` at separations `5` and
`10`. -/
theorem newtonian_grav_third_law_monotone_witness :
    (0:ℝ) < c7a.mass ∧ (0:ℝ) < c7b.mass ∧ c7a2.mass = c7a.mass ∧
    c7b2.mass = c7b.mass ∧ (0:ℝ) < norm2 (c7b.position - c7a.position) ∧
    norm2 (c7b.position - c7a.position) < norm2 (c7b2.position - c7a2.position) ∧
    norm2 (newtonian_force c7a2 c7b2) < norm2 (newtonian_force c7a c7b) := by
  have h5 : norm2 (c7b.position - c7a.position) = 5 := by
    show Real.sqrt _ = 5
    norm_num [c7a, c7b, mkPlanet, Prod.ext_iff]
    rw [show (25:ℝ) = 5 ^ 2 by norm_num]
    exact Real.sqrt_sq (by norm_num)
  have h10 : norm2 (c7b2.position - c7a2.position) = 10 := by
    show Real.sqrt _ = 10
    norm_num [c7a2, c7b2, mkPlanet, Prod.ext_iff]
    rw [show (100:ℝ) = 10 ^ 2 by norm_num]
    exact Real.sqrt_sq (by norm_num)
  refine ⟨by norm_num [c7a, mkPlanet], by norm_num [c7b, mkPlanet],
    by norm_num [c7a, c7a2, mkPlanet], by norm_num [c7b, c7b2, mkPlanet],
    by rw [h5]; norm_num, by rw [h5, h10]; norm_num, ?_⟩
  exact (newtonian_grav_third_law_monotone c7a c7b c7a2 c7b2
    (by norm_num [c7a, mkPlanet]) (by norm_num [c7b, mkPlanet])
    (by norm_num [c7a, c7a2, mkPlanet]) (by norm_num [c7b, c7b2, mkPlanet])
    (by rw [h5]; norm_num) (by rw [h5, h10]; norm_num)).2.2.2

/-! ## C8: the AABB pre-test does not change the collision predicate -/

/-- C8: the two-stage AABB-then-circle test of `check_collision` accepts
exactly the pairs the pure circle test accepts, whenever the radii sum is
non-negative (bodies always have positive radii). -/
theorem check_collision_iff_circle (p1 p2 : Planet)
    (hr : 0 ≤ p1.radius + p2.radius) :
    (check_collision p1 p2 ↔ circle_collision_spec p1 p2) := by
  unfold check_collision circle_collision_spec
  constructor
  · rintro ⟨-, -, h⟩
    exact h
  · intro h
    refine ⟨?_, ?_, h⟩
    · nlinarith [sq_abs (p2.position - p1.position).1,
        abs_nonneg (p2.position - p1.position).1,
        sq_nonneg (p2.position - p1.position).2]
    · nlinarith [sq_abs (p2.position - p1.position).2,
        abs_nonneg (p2.position - p1.position).2,
        sq_nonneg (p2.position - p1.position).1]

/-- Witness for `check_collision_iff_circle`. -/
theorem check_collision_iff_circle_witness :
    (0:ℝ) ≤ c8a.radius + c8b.radius ∧
    (check_collision c8a c8b ↔ circle_collision_spec c8a c8b) :=
  ⟨by norm_num [c8a, c8b, mkPlanet],
   check_collision_iff_circle c8a c8b (by norm_num [c8a, c8b, mkPlanet])⟩

/-! ## C9: edge teleport -/

lemma update_position_wrap (dt : ℝ) (p : Planet) :
    (p.update dt).position =
      (wrapCoord p.radius SCREEN_DIMS.1
        (p.position + vsmul (p.velocity + vsmul (vdiv p.resultant_force p.mass) dt) dt).1,
       wrapCoord p.radius SCREEN_DIMS.2
        (p.position + vsmul (p.velocity + vsmul (vdiv p.resultant_force p.mass) dt) dt).2) := rfl

/-- C9: with edge teleport enabled, whenever the integration step leaves a
coordinate beyond a screen edge by more than the radius, the coordinate wraps
to the opposite edge (`x > width + r ↦ -r`, `x < -r ↦ width + r`, and
symmetrically in `y`). -/
theorem update_edge_teleport (p : Planet) (dt : ℝ) (hr : 0 ≤ p.radius) :
    ((p.position + vsmul (p.velocity + vsmul (vdiv p.resultant_force p.mass) dt) dt).1 >
        SCREEN_DIMS.1 + p.radius → (p.update dt).position.1 = -p.radius) ∧
    ((p.position + vsmul (p.velocity + vsmul (vdiv p.resultant_force p.mass) dt) dt).1 <
        -p.radius → (p.update dt).position.1 = SCREEN_DIMS.1 + p.radius) ∧
    ((p.position + vsmul (p.velocity + vsmul (vdiv p.resultant_force p.mass) dt) dt).2 >
        SCREEN_DIMS.2 + p.radius → (p.update dt).position.2 = -p.radius) ∧
    ((p.position + vsmul (p.velocity + vsmul (vdiv p.resultant_force p.mass) dt) dt).2 <
        -p.radius → (p.update dt).position.2 = SCREEN_DIMS.2 + p.radius) := by
  have hW : (SCREEN_DIMS.1 : ℝ) = 1280 := rfl
  have hH : (SCREEN_DIMS.2 : ℝ) = 860 := rfl
  rw [update_position_wrap]
  refine ⟨?_, ?_, ?_, ?_⟩
  · intro h
    exact wrapCoord_high (by linarith [hW, hr, h]) h
  · intro h
    exact wrapCoord_low h
  · intro h
    exact wrapCoord_high (by linarith [hH, hr, h]) h
  · intro h
    exact wrapCoord_low h

/-- Witness for `update_edge_teleport`: a body at `x = 1290 > 1280 + 5`
reappears at `x = -5`. -/
theorem update_edge_teleport_witness :
    (0:ℝ) ≤ c9p.radius ∧ (c9p.update 0).position.1 = -c9p.radius := by
  refine ⟨by norm_num [c9p, mkPlanet], ?_⟩
  exact (update_edge_teleport c9p 0 (by norm_num [c9p, mkPlanet])).1
    (by norm_num [c9p, mkPlanet, vsmul, vdiv, SCREEN_DIMS, Prod.ext_iff])

/-! ## C10: an empty trail never regains nodes and is kept while parented -/

/-- C10: once a trail's node deque is empty, `add_node` inserts nothing;
`update` with a parent position keeps the deque empty (while marking the
parent present), and the resulting trail is not `is_dead`, so the tick's
trail-retention pass keeps it. -/
theorem empty_trail_stays_empty (t : PlanetTrail) (h : t.nodes = [])
    (pos pp : ℝ × ℝ) (now dt : ℝ) :
    t.add_node pos now = t ∧
    (t.update dt (some pp) now).nodes = [] ∧
    (t.update dt (some pp) now).has_parent = true ∧
    (t.update dt (some pp) now).is_dead = false := by
  have hkill : t.kill_dead_nodes now = t := by
    cases t
    simp_all [PlanetTrail.kill_dead_nodes]
  have hadd : ∀ (t' : PlanetTrail), t'.nodes = [] → ∀ q m, t'.add_node q m = t' := by
    intro t' h' q m
    simp [PlanetTrail.add_node, h']
  have hupd : (t.update dt (some pp) now).nodes = [] ∧
      (t.update dt (some pp) now).has_parent = true := by
    simp only [PlanetTrail.update]
    rw [hkill]
    by_cases hc : t.node_placement_timer + dt > PLANET_TRAIL_NODE_PLACEMENT_PERIOD
    · rw [if_pos hc]
      refine ⟨?_, ?_⟩
      · rw [hadd ⟨t.nodes, t.node_placement_timer + dt, true⟩ h pp now]
        exact h
      · rw [hadd ⟨t.nodes, t.node_placement_timer + dt, true⟩ h pp now]
    · rw [if_neg hc]
      exact ⟨h, rfl⟩
  refine ⟨hadd t h pos now, hupd.1, hupd.2, ?_⟩
  simp [PlanetTrail.is_dead, hupd.1, hupd.2]

/-- Witness for `empty_trail_stays_empty` at the concrete expired trail
`c10t`. -/
theorem empty_trail_stays_empty_witness :
    c10t.nodes = [] ∧ c10t.add_node (5, 5) 1 = c10t ∧
    (c10t.update 1 (some (7, 7)) 1).nodes = [] ∧
    (c10t.update 1 (some (7, 7)) 1).is_dead = false := by
  refine ⟨rfl, ?_, ?_, ?_⟩
  · exact (empty_trail_stays_empty c10t rfl (5, 5) (7, 7) 1 1).1
  · exact (empty_trail_stays_empty c10t rfl (5, 5) (7, 7) 1 1).2.1
  · exact (empty_trail_stays_empty c10t rfl (5, 5) (7, 7) 1 1).2.2.2

/-! ## Invariants of the pairwise scan -/

lemma forceOnly_refl (p : Planet) : ForceOnly p p :=
  ⟨rfl, rfl, rfl, rfl, rfl, rfl⟩

lemma forceOnly_trans {a b c : Planet} (h1 : ForceOnly a b) (h2 : ForceOnly b c) :
    ForceOnly a c :=
  ⟨h1.1.trans h2.1, h1.2.1.trans h2.2.1, h1.2.2.1.trans h2.2.2.1,
   h1.2.2.2.1.trans h2.2.2.2.1, h1.2.2.2.2.1.trans h2.2.2.2.2.1,
   h1.2.2.2.2.2.trans h2.2.2.2.2.2⟩

lemma forceOnly_grav_fst (pl1 pl2 : Planet) (sq : ℝ) (dv : ℝ × ℝ) :
    ForceOnly (newtonian_grav pl1 pl2 sq dv).1 pl1 :=
  ⟨rfl, rfl, rfl, rfl, rfl, rfl⟩

lemma forceOnly_grav_snd (pl1 pl2 : Planet) (sq : ℝ) (dv : ℝ × ℝ) :
    ForceOnly (newtonian_grav pl1 pl2 sq dv).2 pl2 :=
  ⟨rfl, rfl, rfl, rfl, rfl, rfl⟩

lemma forceOnly_eq {q p : Planet} (h : ForceOnly q p) :
    q = { p with resultant_force := q.resultant_force } := by
  obtain ⟨h1, h2, h3, h4, h5, h6⟩ := h
  cases q
  cases p
  simp_all

lemma sameMotion_refl (p : Planet) : SameMotion p p := ⟨rfl, rfl, rfl⟩

lemma sameMotion_trans {a b c : Planet} (h1 : SameMotion a b) (h2 : SameMotion b c) :
    SameMotion a c :=
  ⟨h1.1.trans h2.1, h1.2.1.trans h2.2.1, h1.2.2.trans h2.2.2⟩

lemma sameMotion_grav_fst (pl1 pl2 : Planet) (sq : ℝ) (dv : ℝ × ℝ) :
    SameMotion (newtonian_grav pl1 pl2 sq dv).1 pl1 := ⟨rfl, rfl, rfl⟩

lemma sameMotion_grav_snd (pl1 pl2 : Planet) (sq : ℝ) (dv : ℝ × ℝ) :
    SameMotion (newtonian_grav pl1 pl2 sq dv).2 pl2 := ⟨rfl, rfl, rfl⟩

lemma check_collision_congr {q1 p1 q2 p2 : Planet}
    (h1 : SameMotion q1 p1) (h2 : SameMotion q2 p2) :
    check_collision q1 q2 ↔ check_collision p1 p2 := by
  unfold check_collision
  rw [h1.1, h1.2.2, h2.1, h2.2.2]

lemma get?_some_of_lt {α : Type _} (l : List α) (k : Nat) (h : k < l.length) :
    ∃ a, l.get? k = some a :=
  ⟨l.get ⟨k, h⟩, List.get?_eq_get h⟩

lemma lt_length_of_get?_some {α : Type _} {l : List α} {k : Nat} {a : α}
    (h : l.get? k = some a) : k < l.length := by
  by_contra hc
  rw [List.get?_eq_none.2 (by omega)] at h
  exact Option.noConfusion h

/-- One pair iteration preserves `ScanInvF`. -/
lemma pairStep_preserves_forceOnly (l0 : List (Nat × Planet)) (st : ScanState)
    (i j : Nat) (hi : i < l0.length) (hj : j < l0.length) (hij : i ≠ j)
    (h : ScanInvF l0 st) : ScanInvF l0 (pairStep st i j) := by
  obtain ⟨hlen, hsub, hslots⟩ := h
  by_cases hcj : st.collided.contains j = true
  · rw [pairStep_skip st i j hcj]
    exact ⟨hlen, hsub, hslots⟩
  have hcj' : st.collided.contains j = false := by simpa using hcj
  obtain ⟨keyi, qi, pi, hsti, hl0i, hdi⟩ := hslots i hi
  obtain ⟨keyj, qj, pj, hstj, hl0j, hdj⟩ := hslots j hj
  rw [pairStep_eval st i j (keyi, qi) (keyj, qj) hcj' hsti hstj]
  have hilen : i < st.planets.length := hlen ▸ hi
  have hjlen : j < st.planets.length := hlen ▸ hj
  by_cases hcol : check_collision qi qj
  · by_cases hprot : qi.has_spawn_protection = true ∨ qj.has_spawn_protection = true
    · rw [pairCore_skip st i j keyi keyj qi qj hcol hprot]
      exact ⟨hlen, hsub, hslots⟩
    · rw [pairCore_merge st i j keyi keyj qi qj hcol hprot]
      refine ⟨by simpa using hlen, ?_, ?_⟩
      · intro x hx
        rcases List.mem_append.1 hx with hx | hx
        · exact List.mem_append_left _ (hsub x hx)
        · simp only [List.mem_singleton] at hx
          subst hx
          exact List.mem_append_right _ (by simp)
      · intro k hk
        by_cases hki : k = i
        · subst hki
          refine ⟨keyi, collide_planets qi qj, pi, ?_, hl0i, Or.inr ?_⟩
          · dsimp only
            rw [List.get?_set_eq_of_lt _ hilen]
          · exact List.mem_append_right _ (by simp)
        · obtain ⟨key, q, p, hstk, hl0k, hd⟩ := hslots k hk
          refine ⟨key, q, p, ?_, hl0k, ?_⟩
          · dsimp only
            rw [List.get?_set_ne _ _ (fun hh => hki hh.symm)]
            exact hstk
          · rcases hd with hd | hd
            · exact Or.inl hd
            · exact Or.inr (List.mem_append_left _ hd)
  · rw [pairCore_grav st i j keyi keyj qi qj hcol]
    refine ⟨by simpa using hlen, hsub, ?_⟩
    intro k hk
    by_cases hki : k = i
    · subst hki
      refine ⟨keyi, (newtonian_grav qi qj
          ((qj.position - qi.position).1 ^ 2 + (qj.position - qi.position).2 ^ 2)
          (qj.position - qi.position)).1, pi, ?_, hl0i, ?_⟩
      · dsimp only
        rw [List.get?_set_ne _ _ (Ne.symm hij), List.get?_set_eq_of_lt _ hilen]
      · rcases hdi with hd | hd
        · exact Or.inl (forceOnly_trans (forceOnly_grav_fst qi qj _ _) hd)
        · exact Or.inr hd
    · by_cases hkj : k = j
      · subst hkj
        refine ⟨keyj, (newtonian_grav qi qj
            ((qj.position - qi.position).1 ^ 2 + (qj.position - qi.position).2 ^ 2)
            (qj.position - qi.position)).2, pj, ?_, hl0j, ?_⟩
        · dsimp only
          rw [List.get?_set_eq_of_lt _ (by simpa using hjlen)]
        · rcases hdj with hd | hd
          · exact Or.inl (forceOnly_trans (forceOnly_grav_snd qi qj _ _) hd)
          · exact Or.inr hd
      · obtain ⟨key, q, p, hstk, hl0k, hd⟩ := hslots k hk
        refine ⟨key, q, p, ?_, hl0k, hd⟩
        dsimp only
        rw [List.get?_set_ne _ _ (fun hh => hkj hh.symm),
          List.get?_set_ne _ _ (fun hh => hki hh.symm)]
        exact hstk

/-- One pair iteration preserves `ScanInvM` when no two distinct starting
slots collide. -/
lemma pairStep_preserves_motion (l0 : List (Nat × Planet))
    (hgeo : ∀ i j, i ≠ j → ∀ ki kj, l0.get? i = some ki → l0.get? j = some kj →
      ¬ check_collision ki.2 kj.2)
    (st : ScanState) (i j : Nat) (hi : i < l0.length) (hj : j < l0.length)
    (hij : i ≠ j) (h : ScanInvM l0 st) : ScanInvM l0 (pairStep st i j) := by
  obtain ⟨hcoll, hrem, hlen, hslots⟩ := h
  have hcj' : st.collided.contains j = false := by
    rw [hcoll]
    rfl
  obtain ⟨keyi, qi, pi, hsti, hl0i, hmi⟩ := hslots i hi
  obtain ⟨keyj, qj, pj, hstj, hl0j, hmj⟩ := hslots j hj
  rw [pairStep_eval st i j (keyi, qi) (keyj, qj) hcj' hsti hstj]
  have hilen : i < st.planets.length := hlen ▸ hi
  have hjlen : j < st.planets.length := hlen ▸ hj
  have hnc : ¬ check_collision qi qj := by
    intro hcol
    exact hgeo i j hij (keyi, pi) (keyj, pj) hl0i hl0j
      ((check_collision_congr hmi hmj).1 hcol)
  rw [pairCore_grav st i j keyi keyj qi qj hnc]
  refine ⟨hcoll, hrem, by simpa using hlen, ?_⟩
  intro k hk
  by_cases hki : k = i
  · subst hki
    refine ⟨keyi, (newtonian_grav qi qj
        ((qj.position - qi.position).1 ^ 2 + (qj.position - qi.position).2 ^ 2)
        (qj.position - qi.position)).1, pi, ?_, hl0i, ?_⟩
    · rw [List.get?_set_ne _ _ (Ne.symm hij), List.get?_set_eq_of_lt _ hilen]
    · exact sameMotion_trans (sameMotion_grav_fst qi qj _ _) hmi
  · by_cases hkj : k = j
    · subst hkj
      refine ⟨keyj, (newtonian_grav qi qj
          ((qj.position - qi.position).1 ^ 2 + (qj.position - qi.position).2 ^ 2)
          (qj.position - qi.position)).2, pj, ?_, hl0j, ?_⟩
      · rw [List.get?_set_eq_of_lt _ (by simpa using hjlen)]
      · exact sameMotion_trans (sameMotion_grav_snd qi qj _ _) hmj
    · obtain ⟨key, q, p, hstk, hl0k, hm⟩ := hslots k hk
      refine ⟨key, q, p, ?_, hl0k, hm⟩
      dsimp only
      rw [List.get?_set_ne _ _ (fun hh => hkj hh.symm),
        List.get?_set_ne _ _ (fun hh => hki hh.symm)]
      exact hstk

/-- The full scan preserves `ScanInvF` from the initial state. -/
lemma scanPairs_forceOnly (l0 : List (Nat × Planet)) :
    ScanInvF l0 (scanPairs l0.length ⟨l0, [], []⟩) := by
  unfold scanPairs
  apply foldl_inv (ScanInvF l0) (outerStep l0.length)
  · intro st i himem hst
    have hi : i < l0.length - 1 := List.mem_range.1 himem
    by_cases hci : st.collided.contains i = true
    · rw [outerStep_skip _ _ _ hci]
      exact hst
    · rw [outerStep_run _ _ _ (by simpa using hci)]
      apply foldl_inv (ScanInvF l0) _ _ _ _ hst
      intro st' j hjmem hst'
      have hj := List.mem_range'_1.1 hjmem
      exact pairStep_preserves_forceOnly l0 st' i j (by omega) (by omega)
        (by omega) hst'
  · refine ⟨rfl, by simp, ?_⟩
    intro k hk
    obtain ⟨a, ha⟩ := get?_some_of_lt l0 k hk
    exact ⟨a.1, a.2, a.2, ha, ha, Or.inl (forceOnly_refl _)⟩

/-- The full scan of a configuration with no colliding pair only accumulates
forces. -/
lemma scanPairs_motion (l0 : List (Nat × Planet))
    (hgeo : ∀ i j, i ≠ j → ∀ ki kj, l0.get? i = some ki → l0.get? j = some kj →
      ¬ check_collision ki.2 kj.2) :
    ScanInvM l0 (scanPairs l0.length ⟨l0, [], []⟩) := by
  unfold scanPairs
  apply foldl_inv (ScanInvM l0) (outerStep l0.length)
  · intro st i himem hst
    have hi : i < l0.length - 1 := List.mem_range.1 himem
    by_cases hci : st.collided.contains i = true
    · rw [outerStep_skip _ _ _ hci]
      exact hst
    · rw [outerStep_run _ _ _ (by simpa using hci)]
      apply foldl_inv (ScanInvM l0) _ _ _ _ hst
      intro st' j hjmem hst'
      have hj := List.mem_range'_1.1 hjmem
      exact pairStep_preserves_motion l0 hgeo st' i j (by omega) (by omega)
        (by omega) hst'
  · refine ⟨rfl, rfl, rfl, ?_⟩
    intro k hk
    obtain ⟨a, ha⟩ := get?_some_of_lt l0 k hk
    exact ⟨a.1, a.2, a.2, ha, ha, sameMotion_refl _⟩

/-! ## C1 (amended): integration precedes the pairwise pass -/

lemma update_zero_velocity (p : Planet) : (p.update 0).velocity = p.velocity := by
  rw [update_velocity, add_vsmul_zero]

lemma update_zero_position (p : Planet) (hbp : InBounds p) :
    (p.update 0).position = p.position := by
  rw [update_position_wrap, add_vsmul_zero]
  obtain ⟨h1, h2, h3, h4⟩ := hbp
  rw [wrapCoord_eq_self h1 h2, wrapCoord_eq_self h3 h4]

lemma sameMotion_update_zero (p : Planet) (hbp : InBounds p) :
    SameMotion (p.update 0) p :=
  ⟨update_zero_position p hbp, update_zero_velocity p, rfl⟩

/-- C1 (amended): in a tick the phases run dead-trail removal, then
integration of every body, then the pairwise pass in which merging (in place
into the first slot, keeping its id) and gravity accumulation are
interleaved, then removal, then trail update.  Consequently a body whose id
is never recorded in `collided_planets` leaves the tick exactly as the
integration phase (driven only by the force accumulated in previous ticks)
left it, except that its force accumulator now carries this tick's gravity —
which is applied to its motion only at the next tick's integration.  A body
that collides is not replaced: it is merged in place under its old id. -/
theorem tick_uncollided_only_force (s : MainState) (now dt : ℝ) (pid : Nat) (p : Planet)
    (hmem : (pid, p) ∈ s.planets)
    (hnc : pid ∉ (scanPairs s.planets.length
      ⟨s.planets.map (fun kp => (kp.1, kp.2.update dt)), [], []⟩).collided) :
    ∃ F, (pid, { p.update dt with resultant_force := F }) ∈ (tick now dt s).planets := by
  have hlen0 : (s.planets.map (fun kp => (kp.1, kp.2.update dt))).length
      = s.planets.length := by simp
  have hinv := scanPairs_forceOnly (s.planets.map (fun kp => (kp.1, kp.2.update dt)))
  rw [hlen0] at hinv
  obtain ⟨hlen, hsub, hslots⟩ := hinv
  obtain ⟨i, hi⟩ := List.mem_iff_get?.1 hmem
  have hil : i < s.planets.length := lt_length_of_get?_some hi
  have hl0i : (s.planets.map (fun kp => (kp.1, kp.2.update dt))).get? i =
      some (pid, p.update dt) := by
    rw [List.get?_map, hi]
    rfl
  obtain ⟨key, q, p', hstq, hl0i', hd⟩ := hslots i (by rw [hlen0]; exact hil)
  rw [hl0i] at hl0i'
  injection hl0i' with hpair
  have hkey : pid = key := congrArg Prod.fst hpair
  have hp' : p.update dt = p' := congrArg Prod.snd hpair
  subst hkey
  subst hp'
  have hfo : ForceOnly q (p.update dt) := by
    rcases hd with hd | hd
    · exact hd
    · exact absurd hd hnc
  have hnr : pid ∉ (scanPairs s.planets.length
      ⟨s.planets.map (fun kp => (kp.1, kp.2.update dt)), [], []⟩).toRemove :=
    fun hmm => hnc (hsub pid hmm)
  have htick : (tick now dt s).planets =
      (scanPairs s.planets.length
        ⟨s.planets.map (fun kp => (kp.1, kp.2.update dt)), [], []⟩).planets.filter
        (fun kp => !((scanPairs s.planets.length
          ⟨s.planets.map (fun kp => (kp.1, kp.2.update dt)), [], []⟩).toRemove.contains kp.1)) :=
    rfl
  refine ⟨q.resultant_force, ?_⟩
  rw [htick, ← forceOnly_eq hfo]
  exact List.mem_filter.2 ⟨List.get?_mem hstq, by simpa using hnr⟩

/-- Witness for `tick_uncollided_only_force`: a single isolated planet. -/
theorem tick_uncollided_only_force_witness :
    ((0:Nat), c1w) ∈ c1wState.planets ∧
    (0:Nat) ∉ (scanPairs c1wState.planets.length
      ⟨c1wState.planets.map (fun kp => (kp.1, kp.2.update 0)), [], []⟩).collided ∧
    ∃ F, ((0:Nat), { c1w.update 0 with resultant_force := F }) ∈
      (tick 0 0 c1wState).planets := by
  have h1 : ((0:Nat), c1w) ∈ c1wState.planets := by simp [c1wState]
  have h2 : (0:Nat) ∉ (scanPairs c1wState.planets.length
      ⟨c1wState.planets.map (fun kp => (kp.1, kp.2.update 0)), [], []⟩).collided := by
    show (0:Nat) ∉ ([] : List Nat)
    simp
  exact ⟨h1, h2, tick_uncollided_only_force c1wState 0 0 0 c1w h1 h2⟩

/-! ## C5 (amended): a `dt = 0` tick moves nothing when nothing overlaps -/

/-- C5 (amended): a tick with `dt = 0` changes no body's position or velocity
provided every body is inside the teleport bounds and no two distinct bodies
overlap (an out-of-bounds body is teleported and an overlapping unprotected
pair is merged even with `dt = 0`; the force accumulators may still change). -/
theorem tick_zero_preserves_motion (s : MainState) (now : ℝ)
    (hb : ∀ kp ∈ s.planets, InBounds kp.2)
    (hgeo : ∀ i j, i ≠ j → ∀ ki kj, s.planets.get? i = some ki →
      s.planets.get? j = some kj → ¬ check_collision ki.2 kj.2) :
    ∀ kp ∈ s.planets, ∃ q, (kp.1, q) ∈ (tick now 0 s).planets ∧
      q.position = kp.2.position ∧ q.velocity = kp.2.velocity := by
  have hlen0 : (s.planets.map (fun kp => (kp.1, kp.2.update 0))).length
      = s.planets.length := by simp
  have hgeo0 : ∀ i j, i ≠ j → ∀ ki kj,
      (s.planets.map (fun kp => (kp.1, kp.2.update 0))).get? i = some ki →
      (s.planets.map (fun kp => (kp.1, kp.2.update 0))).get? j = some kj →
      ¬ check_collision ki.2 kj.2 := by
    intro i j hij ki kj hki hkj
    rw [List.get?_map] at hki hkj
    cases hsi : s.planets.get? i with
    | none => rw [hsi] at hki; exact absurd hki (by simp)
    | some ai =>
      cases hsj : s.planets.get? j with
      | none => rw [hsj] at hkj; exact absurd hkj (by simp)
      | some aj =>
        rw [hsi, Option.map_some'] at hki
        rw [hsj, Option.map_some'] at hkj
        injection hki with hki
        injection hkj with hkj
        subst hki
        subst hkj
        intro hcol
        exact hgeo i j hij ai aj hsi hsj
          ((check_collision_congr
            (sameMotion_update_zero _ (hb ai (List.get?_mem hsi)))
            (sameMotion_update_zero _ (hb aj (List.get?_mem hsj)))).1 hcol)
  have hinv := scanPairs_motion (s.planets.map (fun kp => (kp.1, kp.2.update 0))) hgeo0
  rw [hlen0] at hinv
  obtain ⟨hcoll, hrem, hlen, hslots⟩ := hinv
  intro kp hmem
  obtain ⟨i, hi⟩ := List.mem_iff_get?.1 hmem
  have hil : i < s.planets.length := lt_length_of_get?_some hi
  have hl0i : (s.planets.map (fun kp => (kp.1, kp.2.update 0))).get? i =
      some (kp.1, kp.2.update 0) := by
    rw [List.get?_map, hi]
    rfl
  obtain ⟨key, q, p', hstq, hl0i', hm⟩ := hslots i (by rw [hlen0]; exact hil)
  rw [hl0i] at hl0i'
  injection hl0i' with hpair
  have hkey : kp.1 = key := congrArg Prod.fst hpair
  have hp' : kp.2.update 0 = p' := congrArg Prod.snd hpair
  subst hkey
  subst hp'
  have hbkp : InBounds kp.2 := hb kp hmem
  have htick : (tick now 0 s).planets =
      (scanPairs s.planets.length
        ⟨s.planets.map (fun kp => (kp.1, kp.2.update 0)), [], []⟩).planets.filter
        (fun kp => !((scanPairs s.planets.length
          ⟨s.planets.map (fun kp => (kp.1, kp.2.update 0)), [], []⟩).toRemove.contains kp.1)) :=
    rfl
  refine ⟨q, ?_, ?_, ?_⟩
  · rw [htick]
    refine List.mem_filter.2 ⟨List.get?_mem hstq, ?_⟩
    rw [hrem]
    rfl
  · exact hm.1.trans (update_zero_position kp.2 hbkp)
  · exact hm.2.1.trans (update_zero_velocity kp.2)

/-- Witness for `tick_zero_preserves_motion`: two distant in-bounds bodies. -/
theorem tick_zero_preserves_motion_witness :
    (∀ kp ∈ c5wState.planets, InBounds kp.2) ∧
    (∀ i j, i ≠ j → ∀ ki kj, c5wState.planets.get? i = some ki →
      c5wState.planets.get? j = some kj → ¬ check_collision ki.2 kj.2) ∧
    ∃ q, ((0:Nat), q) ∈ (tick 0 0 c5wState).planets ∧
      q.position = c5w1.position ∧ q.velocity = c5w1.velocity := by
  have hb : ∀ kp ∈ c5wState.planets, InBounds kp.2 := by
    intro kp hkp
    simp only [c5wState, List.mem_cons, List.not_mem_nil, or_false] at hkp
    rcases hkp with h | h <;> subst h <;>
      norm_num [InBounds, c5w1, c5w2, mkPlanet, SCREEN_DIMS]
  have hsep : ¬ check_collision c5w1 c5w2 := by
    rintro ⟨h1, -, -⟩
    norm_num [c5w1, c5w2, mkPlanet] at h1
  have hsep' : ¬ check_collision c5w2 c5w1 := by
    rintro ⟨h1, -, -⟩
    norm_num [c5w1, c5w2, mkPlanet] at h1
  have e0 : c5wState.planets.get? 0 = some (0, c5w1) := rfl
  have e1 : c5wState.planets.get? 1 = some (1, c5w2) := rfl
  have hgeo : ∀ i j, i ≠ j → ∀ ki kj, c5wState.planets.get? i = some ki →
      c5wState.planets.get? j = some kj → ¬ check_collision ki.2 kj.2 := by
    intro i j hij ki kj hki hkj
    have hi2 : i < 2 := lt_length_of_get?_some (l := c5wState.planets) hki
    have hj2 : j < 2 := lt_length_of_get?_some (l := c5wState.planets) hkj
    interval_cases i <;> interval_cases j
    · exact absurd rfl hij
    · rw [e0] at hki
      rw [e1] at hkj
      injection hki with hki
      injection hkj with hkj
      subst hki
      subst hkj
      exact hsep
    · rw [e1] at hki
      rw [e0] at hkj
      injection hki with hki
      injection hkj with hkj
      subst hki
      subst hkj
      exact hsep'
    · exact absurd rfl hij
  refine ⟨hb, hgeo, ?_⟩
  exact tick_zero_preserves_motion c5wState 0 hb hgeo (0, c5w1) (by simp [c5wState])

/-! ## Two-body tick evaluations: merge in place (C2) and protected skip (C6) -/

/-- Keys of the trail collection are unchanged by the trail-update phase. -/
lemma update_planet_trails_keys (dt now : ℝ) (planets : List (Nat × Planet))
    (trails : List (Nat × PlanetTrail)) :
    (update_planet_trails dt now planets trails).map Prod.fst =
      trails.map Prod.fst := by
  simp [update_planet_trails]

/-- Evaluation of a tick on a two-body state whose bodies overlap
unprotected after integration: the second body is merged into the first
body's slot and its key is removed; the trail keys are untouched. -/
lemma tick_two_body_merge_eval (s : MainState) (now dt : ℝ) (i j : Nat)
    (a b : Planet) (hp : s.planets = [(i, a), (j, b)]) (hij : i ≠ j)
    (hcol : check_collision (a.update dt) (b.update dt))
    (hpa : (a.update dt).has_spawn_protection = false)
    (hpb : (b.update dt).has_spawn_protection = false) :
    (tick now dt s).planets = [(i, collide_planets (a.update dt) (b.update dt))] ∧
    (collide_planets (a.update dt) (b.update dt)).id = a.id ∧
    (tick now dt s).planet_id_count = s.planet_id_count ∧
    (tick now dt s).planet_trails.map Prod.fst =
      (s.planet_trails.filter (fun kt => !kt.2.is_dead)).map Prod.fst := by
  have hprot : ¬ ((a.update dt).has_spawn_protection = true ∨
      (b.update dt).has_spawn_protection = true) := by
    rw [hpa, hpb]
    simp
  have hscan : scanPairs s.planets.length
      ⟨s.planets.map (fun kp => (kp.1, kp.2.update dt)), [], []⟩ =
      ⟨[(i, collide_planets (a.update dt) (b.update dt)), (j, b.update dt)],
        [i, j], [j]⟩ := by
    rw [hp]
    have h1 : scanPairs ([(i, a), (j, b)] : List (Nat × Planet)).length
        ⟨[(i, a), (j, b)].map (fun kp => (kp.1, kp.2.update dt)), [], []⟩ =
        pairCore ⟨[(i, a.update dt), (j, b.update dt)], [], []⟩ 0 1
          (i, a.update dt) (j, b.update dt) :=
      pairStep_eval ⟨[(i, a.update dt), (j, b.update dt)], [], []⟩ 0 1
        (i, a.update dt) (j, b.update dt) rfl rfl rfl
    rw [h1, pairCore_merge _ 0 1 i j (a.update dt) (b.update dt) hcol hprot]
    rfl
  have hplanets : (tick now dt s).planets =
      [(i, collide_planets (a.update dt) (b.update dt))] := by
    show (scanPairs s.planets.length
        ⟨s.planets.map (fun kp => (kp.1, kp.2.update dt)), [], []⟩).planets.filter
        (fun kp => !((scanPairs s.planets.length
          ⟨s.planets.map (fun kp => (kp.1, kp.2.update dt)), [], []⟩).toRemove.contains kp.1)) =
      _
    rw [hscan]
    simp [List.filter, hij, Ne.symm hij]
  refine ⟨hplanets, rfl, rfl, ?_⟩
  show (update_planet_trails dt now _ (s.planet_trails.filter (fun kt => !kt.2.is_dead))).map
      Prod.fst = _
  rw [update_planet_trails_keys]

/-- C6 (amended): for a two-body state whose bodies overlap after integration
while at least one of them still holds a spawn-protection timer *after* the
integration phase has decremented it, the tick performs no merge and applies
no gravity between the pair (both bodies survive exactly as integration left
them, with zero force accumulators); the timer decreases by `dt` when at
least `dt` remains (an exact-zero remainder stays `some 0`, still
protecting), and is cleared during the same tick when less than `dt`
remains. -/
theorem tick_protected_pair_skipped (s : MainState) (now dt : ℝ) (i j : Nat)
    (a b : Planet) (hp : s.planets = [(i, a), (j, b)])
    (hcol : check_collision (a.update dt) (b.update dt))
    (hprot : (a.update dt).has_spawn_protection = true ∨
      (b.update dt).has_spawn_protection = true) :
    (tick now dt s).planets = [(i, a.update dt), (j, b.update dt)] ∧
    (a.update dt).resultant_force = (0, 0) ∧
    (b.update dt).resultant_force = (0, 0) ∧
    (∀ t, a.spawn_protection_timer = some t → ¬ t < dt →
      (a.update dt).spawn_protection_timer = some (t - dt)) ∧
    (∀ t, a.spawn_protection_timer = some t → t < dt →
      (a.update dt).spawn_protection_timer = none) := by
  have hscan : scanPairs s.planets.length
      ⟨s.planets.map (fun kp => (kp.1, kp.2.update dt)), [], []⟩ =
      ⟨[(i, a.update dt), (j, b.update dt)], [], []⟩ := by
    rw [hp]
    have h1 : scanPairs ([(i, a), (j, b)] : List (Nat × Planet)).length
        ⟨[(i, a), (j, b)].map (fun kp => (kp.1, kp.2.update dt)), [], []⟩ =
        pairCore ⟨[(i, a.update dt), (j, b.update dt)], [], []⟩ 0 1
          (i, a.update dt) (j, b.update dt) :=
      pairStep_eval ⟨[(i, a.update dt), (j, b.update dt)], [], []⟩ 0 1
        (i, a.update dt) (j, b.update dt) rfl rfl rfl
    rw [h1, pairCore_skip _ 0 1 i j (a.update dt) (b.update dt) hcol hprot]
  have hplanets : (tick now dt s).planets = [(i, a.update dt), (j, b.update dt)] := by
    show (scanPairs s.planets.length
        ⟨s.planets.map (fun kp => (kp.1, kp.2.update dt)), [], []⟩).planets.filter
        (fun kp => !((scanPairs s.planets.length
          ⟨s.planets.map (fun kp => (kp.1, kp.2.update dt)), [], []⟩).toRemove.contains kp.1)) =
      _
    rw [hscan]
    rfl
  exact ⟨hplanets, rfl, rfl,
    fun t ht hge => update_timer_sub a dt t ht hge,
    fun t ht hlt => update_timer_clear a dt t ht hlt⟩

/-! ## Evaluation of `Planet.update` on motionless force-free planets -/

@[simp] lemma pair_zero_eq : ((0:ℝ), (0:ℝ)) = (0 : ℝ × ℝ) := rfl

lemma update_static (p : Planet) (dt : ℝ) (hv : p.velocity = (0, 0))
    (hf : p.resultant_force = (0, 0)) (hb : InBounds p) :
    (p.update dt).position = p.position ∧ (p.update dt).velocity = (0, 0) := by
  obtain ⟨h1, h2, h3, h4⟩ := hb
  have hvel : (p.update dt).velocity = (0, 0) := by
    rw [update_velocity, hv, hf]
    simp
  refine ⟨?_, hvel⟩
  rw [update_position_wrap, hv, hf]
  simp only [vdiv_zero_left, vsmul_zero_left, pair_zero_eq, zero_add, add_zero]
  rw [wrapCoord_eq_self h1 h2, wrapCoord_eq_self h3 h4]

/-- A motionless, force-free, unprotected, in-bounds planet is a fixed point
of `Planet.update` for every `dt`. -/
lemma update_static_clean (p : Planet) (dt : ℝ) (hv : p.velocity = (0, 0))
    (hf : p.resultant_force = (0, 0)) (ht : p.spawn_protection_timer = none)
    (hb : InBounds p) : p.update dt = p := by
  have hs := update_static p dt hv hf hb
  refine Planet.ext rfl hs.1 (hs.2.trans hv.symm) rfl rfl (hf.symm) ?_
  show (match p.spawn_protection_timer with
    | some spawn_timer => if ¬ (spawn_timer < dt) then some (spawn_timer - dt) else none
    | none => none) = p.spawn_protection_timer
  rw [ht]

lemma c2a_up (dt : ℝ) : c2a.update dt = c2a :=
  update_static_clean c2a dt rfl rfl rfl
    (by norm_num [InBounds, c2a, mkPlanet, SCREEN_DIMS])

lemma c2b_up (dt : ℝ) : c2b.update dt = c2b :=
  update_static_clean c2b dt rfl rfl rfl
    (by norm_num [InBounds, c2b, mkPlanet, SCREEN_DIMS])

lemma c4A_up (dt : ℝ) : c4A.update dt = c4A :=
  update_static_clean c4A dt rfl rfl rfl
    (by norm_num [InBounds, c4A, mkPlanet, SCREEN_DIMS])

lemma c4B_up (dt : ℝ) : c4B.update dt = c4B :=
  update_static_clean c4B dt rfl rfl rfl
    (by norm_num [InBounds, c4B, mkPlanet, SCREEN_DIMS])

lemma c4C_up (dt : ℝ) : c4C.update dt = c4C :=
  update_static_clean c4C dt rfl rfl rfl
    (by norm_num [InBounds, c4C, mkPlanet, SCREEN_DIMS])

lemma c1A_up : c1A.update 0 = c1A :=
  update_static_clean c1A 0 rfl rfl rfl
    (by norm_num [InBounds, c1A, mkPlanet, SCREEN_DIMS])

lemma c1B_up : c1B.update 0 = c1B :=
  update_static_clean c1B 0 rfl rfl rfl
    (by norm_num [InBounds, c1B, mkPlanet, SCREEN_DIMS])

lemma c1C_up : c1C.update 0 = c1C :=
  update_static_clean c1C 0 rfl rfl rfl
    (by norm_num [InBounds, c1C, mkPlanet, SCREEN_DIMS])

lemma c6b_up : c6b.update 1 = c6b :=
  update_static_clean c6b 1 rfl rfl rfl
    (by norm_num [InBounds, c6b, mkPlanet, SCREEN_DIMS])

lemma c6wb_up : c6wb.update 1 = c6wb :=
  update_static_clean c6wb 1 rfl rfl rfl
    (by norm_num [InBounds, c6wb, mkPlanet, SCREEN_DIMS])

/-- During the integration phase of the `dt = 1` tick, `c6a`'s remaining
`0.5 s` of protection is below `dt`, so the timer is cleared before the
pairwise scan runs. -/
lemma c6a_up : c6a.update 1 = mkPlanet 20 (100, 100) (0, 0) 10000 5 none := by
  have hs := update_static c6a 1 rfl rfl
    (by norm_num [InBounds, c6a, mkPlanet, SCREEN_DIMS])
  exact Planet.ext rfl hs.1 hs.2 rfl rfl rfl
    (update_timer_clear c6a 1 (1/2) rfl (by norm_num))

lemma c6wa_up : c6wa.update 1 = mkPlanet 30 (100, 100) (0, 0) 10000 5 (some 4) := by
  have hs := update_static c6wa 1 rfl rfl
    (by norm_num [InBounds, c6wa, mkPlanet, SCREEN_DIMS])
  refine Planet.ext rfl hs.1 hs.2 rfl rfl rfl ?_
  rw [update_timer_sub c6wa 1 5 rfl (by norm_num)]
  norm_num [mkPlanet]

/-! ## Evaluation of `collide_planets` on the concrete scenarios -/

lemma c4_collide_eval : collide_planets c4A c4B =
    ⟨0, (207/2, 100), (0, 0), 160000 * π / 3, 2, (0, 0), none⟩ := by
  have hπ : (0:ℝ) < π := Real.pi_pos
  have hm : (80000 * π / 3 : ℝ) + 80000 * π / 3 ≠ 0 := by positivity
  refine Planet.ext rfl ?_ ?_ ?_ ?_ rfl rfl
  · rw [Prod.ext_iff]
    constructor
    · show ((100:ℝ) * (80000 * π / 3) + 107 * (80000 * π / 3)) /
        (80000 * π / 3 + 80000 * π / 3) = 207/2
      rw [div_eq_iff hm]
      ring
    · show ((100:ℝ) * (80000 * π / 3) + 100 * (80000 * π / 3)) /
        (80000 * π / 3 + 80000 * π / 3) = 100
      rw [div_eq_iff hm]
      ring
  · show vdiv (smulv (80000 * π / 3) (0, 0) + smulv (80000 * π / 3) (0, 0))
      (80000 * π / 3 + 80000 * π / 3) = (0, 0)
    simp
  · show (80000 * π / 3 : ℝ) + 80000 * π / 3 = 160000 * π / 3
    ring
  · show inverse_volume_of_sphere ((80000 * π / 3 + 80000 * π / 3) / PLANET_DENSITY) = 2
    rw [show ((80000 * π / 3 + 80000 * π / 3 : ℝ)) / PLANET_DENSITY = 32 * π / 3 by
      unfold PLANET_DENSITY
      ring]
    exact inverse_volume_32pi

lemma c1_collide_eval : collide_planets c1A c1B = c1M0 := by
  unfold c1M0
  show collide_planets c1A c1B =
    ⟨0, (103, 100), (0, 0), 160000 * π / 3, 2, (0, 0), none⟩
  have hπ : (0:ℝ) < π := Real.pi_pos
  have hm : (80000 * π / 3 : ℝ) + 80000 * π / 3 ≠ 0 := by positivity
  refine Planet.ext rfl ?_ ?_ ?_ ?_ rfl rfl
  · rw [Prod.ext_iff]
    constructor
    · show ((100:ℝ) * (80000 * π / 3) + 106 * (80000 * π / 3)) /
        (80000 * π / 3 + 80000 * π / 3) = 103
      rw [div_eq_iff hm]
      ring
    · show ((100:ℝ) * (80000 * π / 3) + 100 * (80000 * π / 3)) /
        (80000 * π / 3 + 80000 * π / 3) = 100
      rw [div_eq_iff hm]
      ring
  · show vdiv (smulv (80000 * π / 3) (0, 0) + smulv (80000 * π / 3) (0, 0))
      (80000 * π / 3 + 80000 * π / 3) = (0, 0)
    simp
  · show (80000 * π / 3 : ℝ) + 80000 * π / 3 = 160000 * π / 3
    ring
  · show inverse_volume_of_sphere ((80000 * π / 3 + 80000 * π / 3) / PLANET_DENSITY) = 2
    rw [show ((80000 * π / 3 + 80000 * π / 3 : ℝ)) / PLANET_DENSITY = 32 * π / 3 by
      unfold PLANET_DENSITY
      ring]
    exact inverse_volume_32pi

/-! ## Three-body chain: the scan merges only the first colliding pair -/

/-- The pairwise scan on a three-body list `x, y, z` (keys `0, 1, 2`) in
which `x` and `y` collide unprotected, producing the merged body `M`, and `M`
does not collide with `z`: the scan merges `y` into slot `0`, records ids
`[0, 1]`, marks id `1` for removal, applies gravity between `M` and `z`, and
the outer loop skips index `1` because `1` is among the recorded ids. -/
lemma scan_three_eval (x y z M : Planet)
    (hxy : check_collision x y)
    (hprot : ¬ (x.has_spawn_protection = true ∨ y.has_spawn_protection = true))
    (hM : collide_planets x y = M)
    (hMz : ¬ check_collision M z) :
    scanPairs 3 ⟨[(0, x), (1, y), (2, z)], [], []⟩ =
      ⟨[(0, (newtonian_grav M z
          ((z.position - M.position).1 ^ 2 + (z.position - M.position).2 ^ 2)
          (z.position - M.position)).1),
        (1, y),
        (2, (newtonian_grav M z
          ((z.position - M.position).1 ^ 2 + (z.position - M.position).2 ^ 2)
          (z.position - M.position)).2)], [0, 1], [1]⟩ := by
  have e1 : pairStep ⟨[(0, x), (1, y), (2, z)], [], []⟩ 0 1 =
      ⟨[(0, M), (1, y), (2, z)], [0, 1], [1]⟩ := by
    rw [pairStep_eval ⟨[(0, x), (1, y), (2, z)], [], []⟩ 0 1 (0, x) (1, y) rfl rfl rfl,
      pairCore_merge _ 0 1 0 1 x y hxy hprot, hM]
    rfl
  have e2 : pairStep ⟨[(0, M), (1, y), (2, z)], [0, 1], [1]⟩ 0 2 =
      ⟨[(0, (newtonian_grav M z
          ((z.position - M.position).1 ^ 2 + (z.position - M.position).2 ^ 2)
          (z.position - M.position)).1),
        (1, y),
        (2, (newtonian_grav M z
          ((z.position - M.position).1 ^ 2 + (z.position - M.position).2 ^ 2)
          (z.position - M.position)).2)], [0, 1], [1]⟩ := by
    rw [pairStep_eval ⟨[(0, M), (1, y), (2, z)], [0, 1], [1]⟩ 0 2 (0, M) (2, z) rfl rfl rfl,
      pairCore_grav _ 0 2 0 2 M z hMz]
    rfl
  show outerStep 3 (outerStep 3 ⟨[(0, x), (1, y), (2, z)], [], []⟩ 0) 1 = _
  rw [outerStep_run 3 ⟨[(0, x), (1, y), (2, z)], [], []⟩ 0 rfl]
  show outerStep 3 (pairStep (pairStep ⟨[(0, x), (1, y), (2, z)], [], []⟩ 0 1) 0 2) 1 = _
  rw [e1, e2]
  exact outerStep_skip 3 _ 1 rfl

/-- Evaluation of a tick on a three-body state `A, B, C` (keys `0, 1, 2`, in
scan order) where `A` overlaps `B` after integration but the merged body does
not overlap `C`: the tick merges `B` into `A`'s slot (gravity then acts
between the merged body and `C`) and removes key `1`. -/
lemma tick_three_body_eval (s : MainState) (now dt : ℝ) (a b c : Planet)
    (hp : s.planets = [(0, a), (1, b), (2, c)])
    (hab : check_collision (a.update dt) (b.update dt))
    (hac : ¬ check_collision (collide_planets (a.update dt) (b.update dt)) (c.update dt))
    (hpa : (a.update dt).has_spawn_protection = false)
    (hpb : (b.update dt).has_spawn_protection = false) :
    (tick now dt s).planets =
      [(0, (newtonian_grav (collide_planets (a.update dt) (b.update dt)) (c.update dt)
        (((c.update dt).position - (collide_planets (a.update dt) (b.update dt)).position).1 ^ 2 +
         ((c.update dt).position - (collide_planets (a.update dt) (b.update dt)).position).2 ^ 2)
        ((c.update dt).position - (collide_planets (a.update dt) (b.update dt)).position)).1),
       (2, (newtonian_grav (collide_planets (a.update dt) (b.update dt)) (c.update dt)
        (((c.update dt).position - (collide_planets (a.update dt) (b.update dt)).position).1 ^ 2 +
         ((c.update dt).position - (collide_planets (a.update dt) (b.update dt)).position).2 ^ 2)
        ((c.update dt).position - (collide_planets (a.update dt) (b.update dt)).position)).2)] := by
  have hprot : ¬ ((a.update dt).has_spawn_protection = true ∨
      (b.update dt).has_spawn_protection = true) := by
    rw [hpa, hpb]
    simp
  show (scanPairs s.planets.length
      ⟨s.planets.map (fun kp => (kp.1, kp.2.update dt)), [], []⟩).planets.filter
      (fun kp => !((scanPairs s.planets.length
        ⟨s.planets.map (fun kp => (kp.1, kp.2.update dt)), [], []⟩).toRemove.contains kp.1)) = _
  rw [hp]
  show (scanPairs 3 ⟨[(0, a.update dt), (1, b.update dt), (2, c.update dt)], [], []⟩).planets.filter
      (fun kp => !((scanPairs 3
        ⟨[(0, a.update dt), (1, b.update dt), (2, c.update dt)], [], []⟩).toRemove.contains kp.1)) = _
  rw [scan_three_eval (a.update dt) (b.update dt) (c.update dt)
    (collide_planets (a.update dt) (b.update dt)) hab hprot rfl hac]
  rfl

/-! ## C2: merging happens in place, no fresh id, no new trail -/

/-- C2 (amended): resolving a collision between the two bodies of a two-body
state merges the second into the first in place: the first body's map key
survives carrying the merged body (whose `id` field is still the first
body's), the second body's entry is removed, no fresh id is allocated
(`planet_id_count` is untouched), and the trail collection's keys are exactly
the retained pre-tick keys — no trail is created for any new id. -/
theorem tick_merges_in_place (s : MainState) (now dt : ℝ) (i j : Nat)
    (a b : Planet) (hp : s.planets = [(i, a), (j, b)]) (hij : i ≠ j)
    (hcol : check_collision (a.update dt) (b.update dt))
    (hpa : (a.update dt).has_spawn_protection = false)
    (hpb : (b.update dt).has_spawn_protection = false) :
    (tick now dt s).planets = [(i, collide_planets (a.update dt) (b.update dt))] ∧
    (collide_planets (a.update dt) (b.update dt)).id = a.id ∧
    (tick now dt s).planet_id_count = s.planet_id_count ∧
    (tick now dt s).planet_trails.map Prod.fst =
      (s.planet_trails.filter (fun kt => !kt.2.is_dead)).map Prod.fst :=
  tick_two_body_merge_eval s now dt i j a b hp hij hcol hpa hpb

lemma c2_collision : check_collision c2a c2b := by
  refine ⟨?_, ?_, ?_⟩ <;>
    norm_num [c2a, c2b, mkPlanet, Prod.fst_sub, Prod.snd_sub]

/-- Witness for `tick_merges_in_place` at the concrete state `c2s0`. -/
theorem tick_merges_in_place_witness :
    c2s0.planets = [(10, c2a), (11, c2b)] ∧ (10 : Nat) ≠ 11 ∧
    check_collision (c2a.update 0) (c2b.update 0) ∧
    (c2a.update 0).has_spawn_protection = false ∧
    (c2b.update 0).has_spawn_protection = false ∧
    (tick 0 0 c2s0).planets = [(10, collide_planets (c2a.update 0) (c2b.update 0))] := by
  have hcol : check_collision (c2a.update 0) (c2b.update 0) := by
    rw [c2a_up 0, c2b_up 0]
    exact c2_collision
  have hpa : (c2a.update 0).has_spawn_protection = false := by
    rw [c2a_up 0]
    rfl
  have hpb : (c2b.update 0).has_spawn_protection = false := by
    rw [c2b_up 0]
    rfl
  exact ⟨rfl, by norm_num, hcol, hpa, hpb,
    (tick_merges_in_place c2s0 0 0 10 11 c2a c2b rfl (by norm_num) hcol hpa hpb).1⟩

/-- C2 (counterexample): after the tick that merges the overlapping bodies
`10` and `11`, the surviving planet key is the *original* id `10` (no fresh
id replaces the originals), `planet_id_count` has not advanced, and the trail
keys are still `[10, 11]` — no trail keyed to a fresh id exists. -/
theorem c2_counterexample :
    check_collision c2a c2b ∧
    (tick 0 0 c2s0).planets.map Prod.fst = [10] ∧
    (tick 0 0 c2s0).planet_id_count = c2s0.planet_id_count ∧
    (tick 0 0 c2s0).planet_trails.map Prod.fst = [10, 11] := by
  have hcol : check_collision (c2a.update 0) (c2b.update 0) := by
    rw [c2a_up 0, c2b_up 0]
    exact c2_collision
  have hpa : (c2a.update 0).has_spawn_protection = false := by
    rw [c2a_up 0]
    rfl
  have hpb : (c2b.update 0).has_spawn_protection = false := by
    rw [c2b_up 0]
    rfl
  obtain ⟨h1, -, h3, h4⟩ :=
    tick_two_body_merge_eval c2s0 0 0 10 11 c2a c2b rfl (by norm_num) hcol hpa hpb
  refine ⟨c2_collision, ?_, h3, ?_⟩
  · rw [h1]
    rfl
  · rw [h4]
    rfl

/-! ## C6: spawn protection versus the merge and the timer -/

lemma c6_collision : check_collision c6a c6b := by
  refine ⟨?_, ?_, ?_⟩ <;>
    norm_num [c6a, c6b, mkPlanet, Prod.fst_sub, Prod.snd_sub]

lemma c6w_collision : check_collision c6wa c6wb := by
  refine ⟨?_, ?_, ?_⟩ <;>
    norm_num [c6wa, c6wb, mkPlanet, Prod.fst_sub, Prod.snd_sub]

/-- Witness for `tick_protected_pair_skipped` at the concrete state
`c6wState` (five seconds of protection left, `dt = 1`). -/
theorem tick_protected_pair_skipped_witness :
    c6wState.planets = [(30, c6wa), (31, c6wb)] ∧
    check_collision (c6wa.update 1) (c6wb.update 1) ∧
    ((c6wa.update 1).has_spawn_protection = true ∨
      (c6wb.update 1).has_spawn_protection = true) ∧
    (tick 0 1 c6wState).planets = [(30, c6wa.update 1), (31, c6wb.update 1)] ∧
    (c6wa.update 1).spawn_protection_timer = some (5 - 1) := by
  have hcol : check_collision (c6wa.update 1) (c6wb.update 1) := by
    rw [c6wa_up, c6wb_up]
    refine ⟨?_, ?_, ?_⟩ <;>
      norm_num [c6wa, c6wb, mkPlanet, Prod.fst_sub, Prod.snd_sub]
  have hprot : (c6wa.update 1).has_spawn_protection = true ∨
      (c6wb.update 1).has_spawn_protection = true := by
    left
    rw [c6wa_up]
    rfl
  obtain ⟨h1, -, -, h4, -⟩ :=
    tick_protected_pair_skipped c6wState 0 1 30 31 c6wa c6wb rfl hcol hprot
  exact ⟨rfl, hcol, hprot, h1, h4 5 rfl (by norm_num)⟩

/-- C6 (counterexample): body `20` enters the tick overlapping body `21` with
`0.5 s` of spawn protection still active, but the tick advances by `dt = 1 s`;
the integration phase clears the timer before the pairwise scan runs, so the
pair is merged in the very same tick — the protected overlapping pair is not
exempt from merging, contradicting the claim. -/
theorem c6_counterexample :
    c6a.has_spawn_protection = true ∧
    check_collision c6a c6b ∧
    (tick 0 1 c6s0).planets.map Prod.fst = [20] := by
  have hcol : check_collision (c6a.update 1) (c6b.update 1) := by
    rw [c6a_up, c6b_up]
    refine ⟨?_, ?_, ?_⟩ <;>
      norm_num [c6a, c6b, mkPlanet, Prod.fst_sub, Prod.snd_sub]
  have hpa : (c6a.update 1).has_spawn_protection = false := by
    rw [c6a_up]
    rfl
  have hpb : (c6b.update 1).has_spawn_protection = false := by
    rw [c6b_up]
    rfl
  obtain ⟨h1, -, -, -⟩ :=
    tick_two_body_merge_eval c6s0 0 1 20 21 c6a c6b rfl (by norm_num) hcol hpa hpb
  refine ⟨rfl, c6_collision, ?_⟩
  rw [h1]
  rfl

/-! ## C4: the transitive chain A–B–C does not merge into one body -/

lemma c4_ab_collision : check_collision c4A c4B := by
  refine ⟨?_, ?_, ?_⟩ <;>
    norm_num [c4A, c4B, mkPlanet, Prod.fst_sub, Prod.snd_sub]

lemma c4_bc_collision : check_collision c4B c4C := by
  refine ⟨?_, ?_, ?_⟩ <;>
    norm_num [c4B, c4C, mkPlanet, Prod.fst_sub, Prod.snd_sub]

lemma c4_ac_separate : ¬ check_collision c4A c4C := by
  rintro ⟨h1, -, -⟩
  norm_num [c4A, c4C, mkPlanet, Prod.fst_sub] at h1

lemma c4_mc_separate : ¬ check_collision (collide_planets c4A c4B) c4C := by
  rw [c4_collide_eval]
  rintro ⟨h1, -, -⟩
  norm_num [c4C, mkPlanet, Prod.fst_sub, abs_le] at h1

/-- C4 (amended): collision resolution is pairwise and in place, not a
transitive grouping.  For a three-body chain `A–B–C` in scan order (`A`
overlaps `B`, `B` overlaps `C`, `A` and `C` do not overlap, and the body
merged from `A` and `B` does not overlap `C`, nobody protected), the tick
merges only `A` and `B` — into `A`'s slot under `A`'s id — while `C` survives
unmerged with its own id, mass, position and velocity (only its force
accumulator receives the gravity of the merged body): two bodies remain, not
one merged from all three. -/
theorem tick_chain_merges_only_first_pair (s : MainState) (now dt : ℝ)
    (a b c : Planet) (hp : s.planets = [(0, a), (1, b), (2, c)])
    (hab : check_collision (a.update dt) (b.update dt))
    (hbc : check_collision (b.update dt) (c.update dt))
    (hac0 : ¬ check_collision (a.update dt) (c.update dt))
    (hac : ¬ check_collision (collide_planets (a.update dt) (b.update dt)) (c.update dt))
    (hpa : (a.update dt).has_spawn_protection = false)
    (hpb : (b.update dt).has_spawn_protection = false) :
    ∃ P Q, (tick now dt s).planets = [(0, P), (2, Q)] ∧
      P.id = a.id ∧ P.mass = a.mass + b.mass ∧
      Q.id = c.id ∧ Q.mass = c.mass ∧
      Q.position = (c.update dt).position ∧ Q.velocity = (c.update dt).velocity := by
  refine ⟨_, _, tick_three_body_eval s now dt a b c hp hab hac hpa hpb,
    ?_, ?_, ?_, ?_, ?_, ?_⟩ <;> simp

/-- Witness for `tick_chain_merges_only_first_pair` at the concrete chain
`c4s0`. -/
theorem tick_chain_merges_only_first_pair_witness :
    c4s0.planets = [(0, c4A), (1, c4B), (2, c4C)] ∧
    check_collision (c4A.update 0) (c4B.update 0) ∧
    check_collision (c4B.update 0) (c4C.update 0) ∧
    ¬ check_collision (c4A.update 0) (c4C.update 0) ∧
    ¬ check_collision (collide_planets (c4A.update 0) (c4B.update 0)) (c4C.update 0) ∧
    ∃ P Q, (tick 0 0 c4s0).planets = [(0, P), (2, Q)] ∧
      P.id = c4A.id ∧ P.mass = c4A.mass + c4B.mass ∧
      Q.id = c4C.id ∧ Q.mass = c4C.mass ∧
      Q.position = (c4C.update 0).position ∧ Q.velocity = (c4C.update 0).velocity := by
  have hab : check_collision (c4A.update 0) (c4B.update 0) := by
    rw [c4A_up 0, c4B_up 0]
    exact c4_ab_collision
  have hbc : check_collision (c4B.update 0) (c4C.update 0) := by
    rw [c4B_up 0, c4C_up 0]
    exact c4_bc_collision
  have hac0 : ¬ check_collision (c4A.update 0) (c4C.update 0) := by
    rw [c4A_up 0, c4C_up 0]
    exact c4_ac_separate
  have hac : ¬ check_collision (collide_planets (c4A.update 0) (c4B.update 0))
      (c4C.update 0) := by
    rw [c4A_up 0, c4B_up 0, c4C_up 0]
    exact c4_mc_separate
  have hpa : (c4A.update 0).has_spawn_protection = false := by
    rw [c4A_up 0]
    rfl
  have hpb : (c4B.update 0).has_spawn_protection = false := by
    rw [c4B_up 0]
    rfl
  exact ⟨rfl, hab, hbc, hac0, hac,
    tick_chain_merges_only_first_pair c4s0 0 0 c4A c4B c4C rfl hab hbc hac0 hac hpa hpb⟩

/-- C4 (counterexample): in the concrete chain (`0` overlaps `1`, `1`
overlaps `2`, `0` and `2` do not overlap, nobody protected), the tick leaves
TWO bodies, and the body with id `2` still has its original mass `10000` —
it was never merged; no single body formed from all three exists. -/
theorem c4_counterexample :
    check_collision c4A c4B ∧ check_collision c4B c4C ∧
    ¬ check_collision c4A c4C ∧
    (tick 0 0 c4s0).planets.length = 2 ∧
    ((tick 0 0 c4s0).planets.lookup 2).map Planet.mass = some (10000 : ℝ) := by
  have hab : check_collision (c4A.update 0) (c4B.update 0) := by
    rw [c4A_up 0, c4B_up 0]
    exact c4_ab_collision
  have hac : ¬ check_collision (collide_planets (c4A.update 0) (c4B.update 0))
      (c4C.update 0) := by
    rw [c4A_up 0, c4B_up 0, c4C_up 0]
    exact c4_mc_separate
  have hpa : (c4A.update 0).has_spawn_protection = false := by
    rw [c4A_up 0]
    rfl
  have hpb : (c4B.update 0).has_spawn_protection = false := by
    rw [c4B_up 0]
    rfl
  have e := tick_three_body_eval c4s0 0 0 c4A c4B c4C rfl hab hac hpa hpb
  refine ⟨c4_ab_collision, c4_bc_collision, c4_ac_separate, ?_, ?_⟩
  · rw [e]
    rfl
  · rw [e]
    simp [List.lookup]
    norm_num [c4C, mkPlanet]

/-! ## C5 (counterexample): the edge teleport moves a body even at `dt = 0` -/

/-- C5 (counterexample): a motionless force-free body parked at
`x = 2000 > 1280 + radius` is teleported to `x = -radius` by a tick with
`dt = 0`: `tick(0)` does change a body's position. -/
theorem c5_counterexample :
    c5p.position = ((2000 : ℝ), 100) ∧
    ((tick 0 0 c5s0).planets.lookup 0).map Planet.position =
      some ((-5 : ℝ), 100) ∧
    ((-5 : ℝ), (100 : ℝ)) ≠ ((2000 : ℝ), (100 : ℝ)) := by
  have e : (tick 0 0 c5s0).planets = [(0, c5p.update 0)] := rfl
  have hvexpr : c5p.position +
      vsmul (c5p.velocity + vsmul (vdiv c5p.resultant_force c5p.mass) 0) 0 =
      ((2000 : ℝ), 100) := by
    rw [vsmul_zero_right, add_zero]
    rfl
  have hpos : (c5p.update 0).position = ((-5 : ℝ), 100) := by
    rw [update_position_wrap, hvexpr]
    show (wrapCoord c5p.radius SCREEN_DIMS.1 2000,
      wrapCoord c5p.radius SCREEN_DIMS.2 100) = _
    rw [wrapCoord_high (by norm_num [c5p, mkPlanet])
        (by norm_num [c5p, mkPlanet, SCREEN_DIMS]),
      wrapCoord_eq_self (by norm_num [c5p, mkPlanet])
        (by norm_num [c5p, mkPlanet, SCREEN_DIMS])]
    norm_num [c5p, mkPlanet]
  refine ⟨rfl, ?_, by intro h; rw [Prod.ext_iff] at h; norm_num at h⟩
  rw [e]
  simp [List.lookup, hpos]

/-! ## C1 (counterexample): a collided body carries that tick's gravity -/

lemma c1_prot : ¬ (c1A.has_spawn_protection = true ∨ c1B.has_spawn_protection = true) := by
  simp [c1A, c1B, mkPlanet, Planet.has_spawn_protection]

lemma c1_ab_collision : check_collision c1A c1B := by
  refine ⟨?_, ?_, ?_⟩ <;>
    norm_num [c1A, c1B, mkPlanet, Prod.fst_sub, Prod.snd_sub]

lemma c1_mc_separate : ¬ check_collision c1M0 c1C := by
  rintro ⟨h1, -, -⟩
  norm_num [c1M0, c1C, mkPlanet, Prod.fst_sub, abs_le] at h1

lemma c1_sqrt64 : Real.sqrt 64 = 8 := by
  rw [show (64:ℝ) = 8 ^ 2 by norm_num]
  exact Real.sqrt_sq (by norm_num)

lemma c1_grav_fst : (newtonian_grav c1M0 c1C 64 ((8:ℝ), 0)).1 = c1Merged := by
  refine Planet.ext rfl rfl rfl rfl rfl ?_ rfl
  show c1M0.resultant_force +
    vsmul ((8:ℝ), 0) (G * c1M0.mass * c1C.mass / (Real.sqrt 64) ^ 3) =
    c1Merged.resultant_force
  rw [c1_sqrt64]
  show ((0:ℝ), (0:ℝ)) +
    vsmul ((8:ℝ), 0) (G * (160000 * π / 3) * 10000 / (8:ℝ) ^ 3) = (2500 * π / 3, 0)
  rw [Prod.ext_iff]
  constructor
  · show 0 + 8 * (G * (160000 * π / 3) * 10000 / (8:ℝ) ^ 3) = 2500 * π / 3
    rw [G]
    ring
  · show 0 + 0 * (G * (160000 * π / 3) * 10000 / (8:ℝ) ^ 3) = 0
    ring

lemma c1_grav_snd : (newtonian_grav c1M0 c1C 64 ((8:ℝ), 0)).2 = c1CAfter := by
  refine Planet.ext rfl rfl rfl rfl rfl ?_ rfl
  show c1C.resultant_force -
    vsmul ((8:ℝ), 0) (G * c1M0.mass * c1C.mass / (Real.sqrt 64) ^ 3) =
    c1CAfter.resultant_force
  rw [c1_sqrt64]
  show ((0:ℝ), (0:ℝ)) -
    vsmul ((8:ℝ), 0) (G * (160000 * π / 3) * 10000 / (8:ℝ) ^ 3) =
    (-(2500 * π / 3), 0)
  rw [Prod.ext_iff]
  constructor
  · show 0 - 8 * (G * (160000 * π / 3) * 10000 / (8:ℝ) ^ 3) = -(2500 * π / 3)
    rw [G]
    ring
  · show 0 - 0 * (G * (160000 * π / 3) * 10000 / (8:ℝ) ^ 3) = 0
    ring

/-- The first C1 tick (`dt = 0`): bodies `0` and `1` merge into slot `0`,
which then receives the tick's gravity towards body `2`. -/
lemma c1_tick1 : tick 0 0 c1s0 = ⟨3, [(0, c1Merged), (2, c1CAfter)], []⟩ := by
  have hdv : c1C.position - c1M0.position = ((8:ℝ), 0) := by
    rw [Prod.ext_iff]
    constructor <;> norm_num [c1M0, c1C, mkPlanet, Prod.fst_sub, Prod.snd_sub]
  have hsq : ((8:ℝ), (0:ℝ)).1 ^ 2 + ((8:ℝ), (0:ℝ)).2 ^ 2 = (64:ℝ) := by
    norm_num
  have hab : check_collision (c1A.update 0) (c1B.update 0) := by
    rw [c1A_up, c1B_up]
    exact c1_ab_collision
  have hprot : ¬ ((c1A.update 0).has_spawn_protection = true ∨
      (c1B.update 0).has_spawn_protection = true) := by
    rw [c1A_up, c1B_up]
    exact c1_prot
  have hM : collide_planets (c1A.update 0) (c1B.update 0) = c1M0 := by
    rw [c1A_up, c1B_up]
    exact c1_collide_eval
  have hpl : (tick 0 0 c1s0).planets = [(0, c1Merged), (2, c1CAfter)] := by
    show (scanPairs 3
        ⟨c1s0.planets.map (fun kp => (kp.1, kp.2.update 0)), [], []⟩).planets.filter
        (fun kp => !((scanPairs 3
          ⟨c1s0.planets.map (fun kp => (kp.1, kp.2.update 0)), [], []⟩).toRemove.contains kp.1)) = _
    have hmap : c1s0.planets.map (fun kp => (kp.1, kp.2.update 0)) =
        [(0, c1A.update 0), (1, c1B.update 0), (2, c1C.update 0)] := rfl
    have hMz : ¬ check_collision c1M0 (c1C.update 0) := by
      rw [c1C_up]
      exact c1_mc_separate
    rw [hmap, scan_three_eval (c1A.update 0) (c1B.update 0) (c1C.update 0) c1M0
      hab hprot hM hMz]
    show List.filter _ [(0, (newtonian_grav c1M0 (c1C.update 0)
        (((c1C.update 0).position - c1M0.position).1 ^ 2 +
         ((c1C.update 0).position - c1M0.position).2 ^ 2)
        ((c1C.update 0).position - c1M0.position)).1),
      (1, c1B.update 0),
      (2, (newtonian_grav c1M0 (c1C.update 0)
        (((c1C.update 0).position - c1M0.position).1 ^ 2 +
         ((c1C.update 0).position - c1M0.position).2 ^ 2)
        ((c1C.update 0).position - c1M0.position)).2)] = _
    rw [c1C_up, hdv, hsq, c1_grav_fst, c1_grav_snd]
    rfl
  exact MainState.ext rfl hpl rfl

/-- The pairwise scan on a non-colliding two-body list only applies gravity. -/
lemma scan_two_grav_eval (i j : Nat) (x y : Planet)
    (hxy : ¬ check_collision x y) :
    scanPairs 2 ⟨[(i, x), (j, y)], [], []⟩ =
      ⟨[(i, (newtonian_grav x y
          ((y.position - x.position).1 ^ 2 + (y.position - x.position).2 ^ 2)
          (y.position - x.position)).1),
        (j, (newtonian_grav x y
          ((y.position - x.position).1 ^ 2 + (y.position - x.position).2 ^ 2)
          (y.position - x.position)).2)], [], []⟩ := by
  show pairStep ⟨[(i, x), (j, y)], [], []⟩ 0 1 = _
  rw [pairStep_eval ⟨[(i, x), (j, y)], [], []⟩ 0 1 (i, x) (j, y) rfl rfl rfl,
    pairCore_grav _ 0 1 i j x y hxy]
  rfl

lemma c1Merged_up : c1Merged.update 1 = c1M2 := by
  have hπ : (0:ℝ) < π := Real.pi_pos
  have hvexpr : c1Merged.velocity +
      vsmul (vdiv c1Merged.resultant_force c1Merged.mass) 1 = ((1:ℝ)/64, 0) := by
    show ((0:ℝ), (0:ℝ)) + vsmul (vdiv (2500 * π / 3, 0) (160000 * π / 3)) 1 = _
    rw [Prod.ext_iff]
    constructor
    · show 0 + (2500 * π / 3) / (160000 * π / 3) * 1 = (1:ℝ)/64
      field_simp
      ring
    · show 0 + 0 / (160000 * π / 3) * 1 = (0:ℝ)
      simp
  have hv : (c1Merged.update 1).velocity = ((1:ℝ)/64, 0) := by
    rw [update_velocity, hvexpr]
  have hsum : c1Merged.position + vsmul ((1:ℝ)/64, 0) 1 = ((6593:ℝ)/64, 100) := by
    show ((103:ℝ), (100:ℝ)) + ((1:ℝ)/64 * 1, (0:ℝ) * 1) = _
    rw [Prod.mk_add_mk, Prod.ext_iff]
    constructor <;> norm_num
  have hpos : (c1Merged.update 1).position = ((6593:ℝ)/64, 100) := by
    rw [update_position_wrap, hvexpr, hsum]
    show (wrapCoord c1Merged.radius SCREEN_DIMS.1 ((6593:ℝ)/64),
      wrapCoord c1Merged.radius SCREEN_DIMS.2 100) = _
    rw [wrapCoord_eq_self (by norm_num [c1Merged]) (by norm_num [c1Merged, SCREEN_DIMS]),
      wrapCoord_eq_self (by norm_num [c1Merged]) (by norm_num [c1Merged, SCREEN_DIMS])]
  exact Planet.ext rfl hpos hv rfl rfl rfl rfl

lemma c1CAfter_up : c1CAfter.update 1 = c1C2 := by
  have hπ : (0:ℝ) < π := Real.pi_pos
  have hπ' := Real.pi_lt_315
  have hvexpr : c1CAfter.velocity +
      vsmul (vdiv c1CAfter.resultant_force c1CAfter.mass) 1 = (-(π/12), 0) := by
    show ((0:ℝ), (0:ℝ)) + vsmul (vdiv (-(2500 * π / 3), 0) 10000) 1 = _
    rw [Prod.ext_iff]
    constructor
    · show 0 + -(2500 * π / 3) / 10000 * 1 = -(π/12)
      ring
    · show 0 + 0 / (10000:ℝ) * 1 = (0:ℝ)
      simp
  have hv : (c1CAfter.update 1).velocity = (-(π/12), 0) := by
    rw [update_velocity, hvexpr]
  have hsum : c1CAfter.position + vsmul (-(π/12), 0) 1 = (111 - π/12, 100) := by
    show ((111:ℝ), (100:ℝ)) + (-(π/12) * 1, (0:ℝ) * 1) = _
    rw [Prod.mk_add_mk, Prod.ext_iff]
    constructor
    · ring
    · norm_num
  have hpos : (c1CAfter.update 1).position = (111 - π/12, 100) := by
    rw [update_position_wrap, hvexpr, hsum]
    show (wrapCoord c1CAfter.radius SCREEN_DIMS.1 (111 - π/12),
      wrapCoord c1CAfter.radius SCREEN_DIMS.2 100) = _
    rw [wrapCoord_eq_self (by
        show -c1CAfter.radius ≤ 111 - π/12
        norm_num [c1CAfter]
        nlinarith)
      (by
        show (111:ℝ) - π/12 ≤ SCREEN_DIMS.1 + c1CAfter.radius
        norm_num [c1CAfter, SCREEN_DIMS]
        nlinarith),
      wrapCoord_eq_self (by norm_num [c1CAfter]) (by norm_num [c1CAfter, SCREEN_DIMS])]
  exact Planet.ext rfl hpos hv rfl rfl rfl rfl

/-- After the second integration, the merged body and `C` are still apart. -/
lemma c1_m2c2_separate : ¬ check_collision c1M2 c1C2 := by
  rintro ⟨h1, -, -⟩
  have hd : (c1C2.position - c1M2.position).1 = 511/64 - π/12 := by
    show (111 - π/12) - (6593:ℝ)/64 = _
    ring
  rw [hd] at h1
  have hb : c1M2.radius + c1C2.radius = (7:ℝ) := by
    norm_num [c1M2, c1C2]
  rw [hb] at h1
  have h2 : (7:ℝ) < 511/64 - π/12 := by
    nlinarith [Real.pi_lt_315]
  have h3 := (abs_le.1 h1).2
  linarith

/-- The second C1 tick (`dt = 1`): integration applies the force accumulated
in the collision tick, changing the merged body's velocity. -/
lemma c1_tick2_vel :
    ((tick 0 1 (⟨3, [(0, c1Merged), (2, c1CAfter)], []⟩ : MainState)).planets.lookup 0).map
      Planet.velocity = some ((1:ℝ)/64, 0) := by
  have hmap : ([((0:Nat), c1Merged), (2, c1CAfter)]).map (fun kp => (kp.1, kp.2.update 1)) =
      [(0, c1M2), (2, c1C2)] := by
    rw [List.map_cons, List.map_cons, List.map_nil, c1Merged_up, c1CAfter_up]
  show (((scanPairs 2
      ⟨([((0:Nat), c1Merged), (2, c1CAfter)]).map (fun kp => (kp.1, kp.2.update 1)), [], []⟩).planets.filter
      (fun kp => !((scanPairs 2
        ⟨([((0:Nat), c1Merged), (2, c1CAfter)]).map (fun kp => (kp.1, kp.2.update 1)), [], []⟩).toRemove.contains kp.1))).lookup 0).map
      Planet.velocity = _
  rw [hmap, scan_two_grav_eval 0 2 c1M2 c1C2 c1_m2c2_separate]
  show some ((newtonian_grav c1M2 c1C2
    ((c1C2.position - c1M2.position).1 ^ 2 + (c1C2.position - c1M2.position).2 ^ 2)
    (c1C2.position - c1M2.position)).1.velocity) = _
  rw [grav_fst_velocity]
  rfl

/-- C1 (counterexample): body `0` collides during the first tick (it is
merged in place: same key, same id, mass became the sum) and in that same
tick accumulates a non-zero gravity force towards body `2`; at the very next
tick this force is applied to its motion, changing its velocity from `(0,0)`
to `(1/64, 0)` — a body that collides is not replaced before integration and
it does receive that tick's gravity contribution. -/
theorem c1_counterexample :
    (tick 0 0 c1s0).planets = [(0, c1Merged), (2, c1CAfter)] ∧
    c1Merged.id = c1A.id ∧
    c1Merged.mass = c1A.mass + c1B.mass ∧
    c1Merged.resultant_force ≠ (0, 0) ∧
    c1Merged.velocity = (0, 0) ∧
    ((tick 0 1 (tick 0 0 c1s0)).planets.lookup 0).map Planet.velocity =
      some ((1:ℝ)/64, 0) ∧
    ((1:ℝ)/64, (0:ℝ)) ≠ ((0:ℝ), (0:ℝ)) := by
  have hπ : (0:ℝ) < π := Real.pi_pos
  refine ⟨congrArg MainState.planets c1_tick1, rfl, ?_, ?_, rfl, ?_, ?_⟩
  · show (160000 * π / 3 : ℝ) = 80000 * π / 3 + 80000 * π / 3
    ring
  · intro h
    rw [Prod.ext_iff] at h
    have h1 : (2500 * π / 3 : ℝ) = 0 := h.1
    nlinarith
  · rw [c1_tick1]
    exact c1_tick2_vel
  · intro h
    rw [Prod.ext_iff] at h
    norm_num at h

end
